import Mathlib

/-!
# go-db: field metadata cache and SQL builder

A shallow embedding of `cache.go`, `query.go` and `types.go`.

* Go maps are association lists with unique keys; the order of the list is the
  order in which `range` visits the map, so a statement proved for every list
  holds for every iteration order.
* `interface{}` values are the inductive type `Value`; `Value.slice` is the
  dynamic type `[]interface{}`.
* A Go `int` is an `Int`; `fmt.Sprintf("%d", n)` is `toString n`.
* A function that can panic returns an `Option`, `none` being the panic.
* The process-wide `fieldCache` is passed explicitly as a `Snapshot`.
-/

namespace gdb

/-! ## The reflect library -/

/-- The kinds of `reflect.Kind` other than `Ptr`, `Slice` and `Struct`. -/
inductive BaseKind where
  | Invalid | Bool | Int | Int8 | Int16 | Int32 | Int64
  | Uint | Uint8 | Uint16 | Uint32 | Uint64 | Uintptr
  | Float32 | Float64 | Complex64 | Complex128
  | Array | Chan | Func | Interface | Map
  | String | UnsafePointer
  deriving DecidableEq

/-- The kinds of `reflect.Kind`. -/
inductive Kind where
  | Ptr
  | Slice
  | Struct
  | base (k : BaseKind)
  deriving DecidableEq

/-- The type of a struct field, as far as the program looks at it: its kind and
its name (the program only calls `Kind()` on it and compares it with
`timeType`). -/
structure TypeRef where
  kind : Kind
  name : String
  deriving DecidableEq

/-- A `reflect.StructField`: `dbTag` is `f.Tag.Get(DB_TAG)`, the empty string
when the field has no `db` tag. -/
structure StructField where
  Name : String
  dbTag : String
  Typ : TypeRef
  Index : List Nat
  deriving DecidableEq

/-- A `reflect.Type` as `typeFileds` sees it: pointer and slice layers over a
struct type or over a type of any other kind. -/
inductive RType where
  | ptr (elem : RType)
  | slice (elem : RType)
  | struct (name : String) (fields : List StructField)
  | other (kind : BaseKind) (name : String)
  deriving DecidableEq

/-- The method `Kind()` of a type. -/
def RType.Kind : RType → Kind
  | .ptr _ => Kind.Ptr
  | .slice _ => Kind.Slice
  | .struct _ _ => Kind.Struct
  | .other k _ => Kind.base k

/-! ## Values of type `interface{}` -/

/-- A value of type `interface{}`; `slice` is a `[]interface{}`. -/
inductive Value where
  | nil
  | int (i : Int)
  | str (s : String)
  | bool (b : Bool)
  | slice (items : List Value)

mutual
/-- Equality of values is decidable. -/
def Value.decEq : (a b : Value) → Decidable (a = b)
  | .nil, .nil => isTrue rfl
  | .int i, .int j =>
    if h : i = j then isTrue (by rw [h]) else isFalse (by intro e; cases e; exact h rfl)
  | .str i, .str j =>
    if h : i = j then isTrue (by rw [h]) else isFalse (by intro e; cases e; exact h rfl)
  | .bool i, .bool j =>
    if h : i = j then isTrue (by rw [h]) else isFalse (by intro e; cases e; exact h rfl)
  | .slice xs, .slice ys =>
    match Value.decEqList xs ys with
    | isTrue h => isTrue (by rw [h])
    | isFalse h => isFalse (by intro e; cases e; exact h rfl)
  | .nil, .int _ | .nil, .str _ | .nil, .bool _ | .nil, .slice _ =>
    isFalse (by intro e; cases e)
  | .int _, .nil | .int _, .str _ | .int _, .bool _ | .int _, .slice _ =>
    isFalse (by intro e; cases e)
  | .str _, .nil | .str _, .int _ | .str _, .bool _ | .str _, .slice _ =>
    isFalse (by intro e; cases e)
  | .bool _, .nil | .bool _, .int _ | .bool _, .str _ | .bool _, .slice _ =>
    isFalse (by intro e; cases e)
  | .slice _, .nil | .slice _, .int _ | .slice _, .str _ | .slice _, .bool _ =>
    isFalse (by intro e; cases e)
/-- Equality of lists of values is decidable. -/
def Value.decEqList : (xs ys : List Value) → Decidable (xs = ys)
  | [], [] => isTrue rfl
  | [], _ :: _ => isFalse (by intro e; cases e)
  | _ :: _, [] => isFalse (by intro e; cases e)
  | a :: xs, b :: ys =>
    match Value.decEq a b with
    | isTrue h =>
      match Value.decEqList xs ys with
      | isTrue h2 => isTrue (by rw [h, h2])
      | isFalse h2 => isFalse (by intro e; cases e; exact h2 rfl)
    | isFalse h => isFalse (by intro e; cases e; exact h rfl)
end

instance : DecidableEq Value := Value.decEq

/-! ## Go maps and strings -/

/-- The assignment `m[k] = v` on a map: the binding of `k` is replaced where
it stands, a new key is added. -/
def mapSet {κ ν : Type} [DecidableEq κ] : List (κ × ν) → κ → ν → List (κ × ν)
  | [], k, v => [(k, v)]
  | (k0, v0) :: rest, k, v =>
    if k0 = k then (k, v) :: rest else (k0, v0) :: mapSet rest k v

/-- The lookup `m[k]` with the comma-ok result: `none` when `k` is absent. -/
def mapGet {κ ν : Type} [DecidableEq κ] : List (κ × ν) → κ → Option ν
  | [], _ => none
  | (k0, v0) :: rest, k => if k0 = k then some v0 else mapGet rest k

/-- The function `strings.Join(elems, sep)`. -/
def Join : List String → String → String
  | [], _ => ""
  | [a], _ => a
  | a :: b :: rest, sep => a ++ sep ++ Join (b :: rest) sep

/-! ## cache.go -/

/-- The constant `DB_TAG`. -/
def DB_TAG : String := "db"

/-- The constant `EMPTY_TAG`. -/
def EMPTY_TAG : String := "-"

/-- The struct `field` of cache.go. -/
structure field where
  name : String
  tag : String
  valid : Bool
  index : List Nat
  typ : Option TypeRef
  deriving DecidableEq

/-- The function `getTag`: the column tag of a struct field and whether the
field is mapped. -/
def getTag (f : StructField) : String × Bool :=
  let tag := f.dbTag
  if tag.length = 0 then (f.Name, true)
  else if tag = EMPTY_TAG then (tag, false)
  else (tag, true)

/-- One turn of the field loop of `typeFileds`: the entry `tmp` built for the
struct field `f`. -/
def typeFiledsEntry (f : StructField) : field :=
  let tmp : field := ⟨"", "", false, [], none⟩
  let (tag, ok) := getTag f
  if ok then
    { tmp with valid := true, tag := tag, typ := some f.Typ, index := f.Index }
  else
    { tmp with valid := false }

/-- The function `typeFileds`: pointer and slice layers are stripped, a type
that is not a struct gives `nil` (`none`), a struct gives one entry per
declared field, appended in declaration order. -/
def typeFileds : RType → Option (List field)
  | .ptr elem => typeFileds elem
  | .slice elem => typeFileds elem
  | .other _ _ => none
  | .struct _ fields => some (fields.foldl (fun res f => res ++ [typeFiledsEntry f]) [])

/-- The value held by `fieldCache.value`: a `map[reflect.Type][]field`, whose
values may be `nil` (`none`). The map that was never stored is `[]`. -/
abbrev Snapshot := List (RType × Option (List field))

/-- The expression `m[t]` on a snapshot: `nil` when `t` has no entry. -/
def Snapshot.get (m : Snapshot) (t : RType) : Option (List field) :=
  match mapGet m t with
  | some f => f
  | none => none

/-- The function `cacheTypeFileds`: the table returned and the snapshot
published. On a hit the snapshot is not written; on a miss the table of
`typeFileds` (the empty table for `nil`) is bound to `t` in a copy of the
snapshot. -/
def cacheTypeFileds (m : Snapshot) (t : RType) : List field × Snapshot :=
  match m.get t with
  | some f => (f, m)
  | none =>
    let f : List field :=
      match typeFileds t with
      | some f => f
      | none => []
    let newM := mapSet m t (some f)
    (f, newM)

/-! ## query.go -/

/-- The type `Operation`, an `int`. -/
abbrev Operation := Int

/-- The constant `EQUAL`. -/
def EQUAL : Operation := 0

/-- The constant `NOTEQUAl`. -/
def NOTEQUAl : Operation := 1

/-- The constant `IN`. -/
def IN : Operation := 2

/-- The constant `NOTIN`. -/
def NOTIN : Operation := 3

/-- A non-nil value of interface type `DBInterface`: its dynamic type
(`reflect.TypeOf`) and what its method `TableName()` returns. -/
structure DBInterface where
  typ : RType
  TableName : String
  deriving DecidableEq

/-- The struct `Conditions`. -/
structure Conditions where
  op : Operation
  value : Value
  deriving DecidableEq

/-- The struct `SelectOrm`; a nil `model` is `none`, a nil `filter` is `[]`. -/
structure SelectOrm where
  columns : List String := []
  model : Option DBInterface := none
  tableName : String := ""
  limit : Int := 0
  offset : Int := 0
  filter : List (String × Conditions) := []
  orderBy : String := ""
  groupBy : List String := []
  deriving DecidableEq

/-- The errors declared by the package. -/
inductive GdbError where
  | InvalidOperationNumErr
  | invalidSelectErr
  | InvalidFieldNumErr
  | FieldTypeErr
  | NotStructErr
  deriving DecidableEq

/-- The three results `(sql, args, err)` of a generator; `err = none` is the
nil error. -/
structure SqlResult where
  sql : String
  args : List Value
  err : Option GdbError
  deriving DecidableEq

/-- The method `(*SelectOrm).Filter`: no operation means `EQUAL`, one
operation is taken, more than one leaves the zero value of `op`. -/
def SelectOrm.Filter (so : SelectOrm) (key : String) (value : Value)
    (operation : List Operation) : SelectOrm :=
  let op : Operation :=
    match operation with
    | [] => EQUAL
    | [o] => o
    | _ => 0
  { so with filter := mapSet so.filter key ⟨op, value⟩ }

/-- The method `(*SelectOrm).In`: the variadic values are passed on as one
`[]interface{}`. -/
def SelectOrm.In (so : SelectOrm) (key : String) (value : List Value) : SelectOrm :=
  so.Filter key (Value.slice value) [IN]

/-- The function `GetColumns`, on a non-nil model: the tags of the valid
entries of the cached table. -/
def GetColumns (m : Snapshot) (model : DBInterface) : List String × Snapshot :=
  let (fields, m) := cacheTypeFileds m model.typ
  (fields.foldl (fun columns f => if f.valid then columns ++ [f.tag] else columns) [], m)

/-- The inner loop of the `NOT IN` branch of `GenerateSql`: one placeholder
and one argument per item. -/
def notInItems : List Value → List String → List Value → Int →
    List String × List Value × Int
  | [], tt, args, count => (tt, args, count)
  | item :: rest, tt, args, count =>
    notInItems rest (tt ++ ["$" ++ toString count]) (args ++ [item]) (count + 1)

/-- One turn of the filter loop of `GenerateSql`: the clause rendered for
`(k, v)`, the arguments and the counter after it. The type assertion on the
value of a `NOT IN` filter panics (`none`) on anything but a
`[]interface{}`. -/
def filterClause (k : String) (v : Conditions) (args : List Value) (count : Int) :
    Option (String × List Value × Int) :=
  let c := k
  if v.op = EQUAL then
    some (c ++ ("=$" ++ toString count), args ++ [v.value], count + 1)
  else if v.op = NOTEQUAl then
    some (c ++ ("!=$" ++ toString count), args, count + 1)
  else if v.op = IN then
    some (c ++ " IN (", args, count + 1)
  else
    let c := c ++ " NOT IN ("
    match v.value with
    | Value.slice items =>
      let (tt, args, count) := notInItems items [] args count
      let count := count - 1
      let c := c ++ Join tt ", "
      let c := c ++ ")"
      some (c, args, count + 1)
    | _ => none

/-- The filter loop of `GenerateSql` over the filters in iteration order. -/
def filterLoop : List (String × Conditions) → List String → List Value → Int →
    Option (List String × List Value × Int)
  | [], marks, args, count => some (marks, args, count)
  | (k, v) :: rest, marks, args, count =>
    match filterClause k v args count with
    | none => none
    | some (c, args, count) => filterLoop rest (marks ++ [c]) args count

/-- The end of `GenerateSql`, from the `GROUP BY` test on. -/
def GenerateSqlTail (so : SelectOrm) (sb : String) (args : List Value) (count : Int) :
    SqlResult :=
  let sb := if so.groupBy.length ≠ 0 then sb ++ " GROUP BY " ++ Join so.groupBy ", " else sb
  let sb := if so.orderBy.length ≠ 0 then sb ++ " ORDER BY " ++ so.orderBy else sb
  let (sb, args, count) :=
    if so.limit > 0 then
      (sb ++ (" LIMIT $" ++ toString count), args ++ [Value.int so.limit], count + 1)
    else (sb, args, count)
  let (sb, args, _) :=
    if so.offset > 0 then
      (sb ++ (" OFFSET $" ++ toString count), args ++ [Value.int so.offset], count + 1)
    else (sb, args, count)
  ⟨sb, args, none⟩

/-- The method `(*SelectOrm).GenerateSql`, with the cache snapshot before and
after. `none` is a panic: a nil model that is dereferenced, or the type
assertion of a `NOT IN` filter. -/
def SelectOrm.GenerateSql (m : Snapshot) (so : SelectOrm) : Option SqlResult × Snapshot :=
  if so.model = none ∧ (so.tableName.length = 0 ∨ so.columns.length = 0) then
    (some ⟨"", [], some GdbError.invalidSelectErr⟩, m)
  else
    let sb := "SELECT "
    let cols : Option (List String × Snapshot) :=
      if so.columns.length ≠ 0 then some (so.columns, m)
      else
        match so.model with
        | some model => some (GetColumns m model)
        | none => none
    match cols with
    | none => (none, m)
    | some (columns, m) =>
      let sb := sb ++ Join columns ", "
      let sb := sb ++ " FROM "
      let tbl : Option String :=
        if so.tableName.length ≠ 0 then some so.tableName
        else
          match so.model with
          | some model => some model.TableName
          | none => none
      match tbl with
      | none => (none, m)
      | some tableName =>
        let sb := sb ++ tableName
        let count : Int := 1
        if so.filter.length ≠ 0 then
          let sb := sb ++ " WHERE "
          match filterLoop so.filter [] [] count with
          | none => (none, m)
          | some (marks, args, count) =>
            let sb := sb ++ Join marks " AND "
            (some (GenerateSqlTail so sb args count), m)
        else
          (some (GenerateSqlTail so sb [] count), m)

/-- The loop of `GetStructType` with `n` turns left: a turn returns `rt` when its kind
is not `Struct` and goes on otherwise, `rt` never being changed; `none` is the
end of the loop without a return. -/
def GetStructTypeLoop : Nat → RType → Option RType
  | 0, _ => none
  | n + 1, rt => if rt.Kind ≠ Kind.Struct then some rt else GetStructTypeLoop n rt

/-- The function `GetStructType`: the results `(res, err)`, a nil `res` being `none`. -/
def GetStructType (rt : RType) : Option RType × Option GdbError :=
  match GetStructTypeLoop 10 rt with
  | some res => (some res, none)
  | none => (none, some GdbError.NotStructErr)

/-- The two loops of `GenerateUpdate` over a map in iteration order: one mark
`k=$count` and one argument per entry. -/
def updateMarks : List (String × Value) → List String → List Value → Int →
    List String × List Value × Int
  | [], marks, args, count => (marks, args, count)
  | (k, v) :: rest, marks, args, count =>
    updateMarks rest (marks ++ [k ++ "=$" ++ toString count]) (args ++ [v]) (count + 1)

/-- The function `GenerateUpdate`; a nil model panics (`none`). The result
`sql` is assigned from the builder only by the last statement. -/
def GenerateUpdate (model : Option DBInterface) (data conditions : List (String × Value)) :
    Option SqlResult :=
  match model with
  | none => none
  | some model =>
    let sql := ""
    let builder := "UPDATE "
    let builder := builder ++ model.TableName
    let builder := builder ++ " SET "
    let (marks, args, count) := updateMarks data [] [] 1
    let builder := builder ++ Join marks ", "
    if conditions.length = 0 then
      some ⟨sql, args, none⟩
    else
      let builder := builder ++ " WHERE "
      let (marks, args, _) := updateMarks conditions [] args count
      let builder := builder ++ Join marks " AND "
      let sql := builder
      some ⟨sql, args, none⟩

/-! ## Vocabulary of the statements -/

/-- The test that opens `GenerateSql` is passed: the specification has a
model, or both an explicit table name and explicit columns. -/
def SelectOrm.valid (so : SelectOrm) : Prop :=
  ¬ (so.model = none ∧ (so.tableName.length = 0 ∨ so.columns.length = 0))

instance (so : SelectOrm) : Decidable so.valid := by
  unfold SelectOrm.valid; infer_instance

/-- Every filter that reaches the type assertion of `GenerateSql` (its
operator is not `EQUAL`, `NOTEQUAl` or `IN`) holds a `[]interface{}`. -/
def SelectOrm.seqValues (so : SelectOrm) : Prop :=
  ∀ k c, (k, c) ∈ so.filter → c.op ≠ EQUAL → c.op ≠ NOTEQUAl → c.op ≠ IN →
    ∃ items, c.value = Value.slice items

/-- The column list `<cols>` of the statement: the explicit columns when there
are any, otherwise what `GetColumns` returns for the model. -/
def SelectOrm.cols (m : Snapshot) (so : SelectOrm) : List String :=
  if so.columns.length ≠ 0 then so.columns
  else
    match so.model with
    | some model => (GetColumns m model).1
    | none => []

/-- The table `<table>` of the statement: the explicit table name when there
is one, otherwise the `TableName()` of the model. -/
def SelectOrm.table (so : SelectOrm) : String :=
  if so.tableName.length ≠ 0 then so.tableName
  else
    match so.model with
    | some model => model.TableName
    | none => ""

/-- The text `SELECT <cols> FROM <table>`. -/
def SelectOrm.head (m : Snapshot) (so : SelectOrm) : String :=
  "SELECT " ++ Join (so.cols m) ", " ++ " FROM " ++ so.table

/-- The text of the `GROUP BY` and `ORDER BY` parts of a specification. -/
def SelectOrm.groupOrder (so : SelectOrm) : String :=
  (if so.groupBy.length ≠ 0 then " GROUP BY " ++ Join so.groupBy ", " else "") ++
    (if so.orderBy.length ≠ 0 then " ORDER BY " ++ so.orderBy else "")

/-- The snapshots the cache can hold: the empty one, and what a call of
`cacheTypeFileds` publishes from one of them. -/
inductive Reachable : Snapshot → Prop where
  | empty : Reachable []
  | step (m : Snapshot) (t : RType) : Reachable m → Reachable (cacheTypeFileds m t).2

/-- The tables a snapshot holds are the ones `typeFileds` computes. -/
def SnapshotOK (m : Snapshot) : Prop :=
  ∀ t f, m.get t = some f → f = (typeFileds t).getD []

/-- The entity of the examples: fields `ID` (tag `id`), `Name` (tag `name`)
and `Hidden` (tag `-`). -/
def exampleEntity : RType :=
  .struct "Entity"
    [⟨"ID", "id", ⟨.base .Int, "int"⟩, [0]⟩,
     ⟨"Name", "name", ⟨.base .String, "string"⟩, [1]⟩,
     ⟨"Hidden", "-", ⟨.base .String, "string"⟩, [2]⟩]

/-- A model of the examples: a pointer to `exampleEntity`, stored in the
table `users`. -/
def exampleModel : DBInterface := ⟨.ptr exampleEntity, "users"⟩

/-- The field table of `exampleEntity`. -/
def exampleTable : List field :=
  [⟨"", "id", true, [0], some ⟨.base .Int, "int"⟩⟩,
   ⟨"", "name", true, [1], some ⟨.base .String, "string"⟩⟩,
   ⟨"", "", false, [], none⟩]

/-- A pointer layer or a slice layer of a type. -/
inductive Layer where
  | ptr
  | slice
  deriving DecidableEq

/-- The type built from `t` by the layers `ls`, the outermost first. -/
def RType.wrap : List Layer → RType → RType
  | [], t => t
  | .ptr :: ls, t => .ptr (RType.wrap ls t)
  | .slice :: ls, t => .slice (RType.wrap ls t)

/-- The placeholder `$(pos+1)` of the argument at position `pos` (counted from 0) of the
argument list. -/
def placeholder (pos : Nat) : String := "$" ++ toString ((pos : Int) + 1)

/-- The values a filter binds: the value of an equality filter, the elements of the
sequence of a `NOT IN` filter. -/
def boundValues (c : Conditions) : List Value :=
  if c.op = EQUAL then [c.value]
  else
    match c.value with
    | Value.slice items => items
    | _ => []

/-- The values the filters bind, in filter order. -/
def boundArgs : List (String × Conditions) → List Value
  | [] => []
  | (_, c) :: rest => boundValues c ++ boundArgs rest

/-- The clause of an equality or `NOT IN` filter whose bound values stand in the
argument list from position `start` on: each value is rendered as the placeholder of
its position. -/
def clauseAt (k : String) (c : Conditions) (start : Nat) : String :=
  if c.op = EQUAL then k ++ "=" ++ placeholder start
  else
    k ++ " NOT IN (" ++
      Join ((List.range (boundValues c).length).map fun j => placeholder (start + j)) ", " ++
      ")"

/-- The clauses of the filters, in filter order, the values of the first filter
standing from position `start` on. -/
def clausesAt : List (String × Conditions) → Nat → List String
  | [], _ => []
  | (k, c) :: rest, start =>
    clauseAt k c start :: clausesAt rest (start + (boundValues c).length)

/-- Two conditions differ only in bound values: the same operator, and for an operator
rendered by the `NOT IN` branch two sequences of equal length. -/
def sameShape (c1 c2 : Conditions) : Prop :=
  c1.op = c2.op ∧
    (c1.op ≠ EQUAL → c1.op ≠ NOTEQUAl → c1.op ≠ IN →
      ∃ xs ys, c1.value = Value.slice xs ∧ c2.value = Value.slice ys ∧ xs.length = ys.length)

/-- Two specifications differ only in bound values: the same columns, model, table
name, order-by and group-by; filters on the same keys, in the same order, of the same
shape; limits that are equal or both positive, and offsets likewise. -/
def SelectOrm.sameButValues (so1 so2 : SelectOrm) : Prop :=
  so1.columns = so2.columns ∧ so1.model = so2.model ∧ so1.tableName = so2.tableName ∧
  so1.orderBy = so2.orderBy ∧ so1.groupBy = so2.groupBy ∧
  List.Forall₂ (fun a b => a.1 = b.1 ∧ sameShape a.2 b.2) so1.filter so2.filter ∧
  (so1.limit = so2.limit ∨ (0 < so1.limit ∧ 0 < so2.limit)) ∧
  (so1.offset = so2.offset ∨ (0 < so1.offset ∧ 0 < so2.offset))

/-- The scan of a text for placeholders `$N`: the state is `none` outside a
placeholder, `some none` after a `$`, `some (some n)` after a `$` and digits of
value `n`. -/
def scanPlaceholders : List Char → Option (Option Nat) → List Nat
  | [], some (some n) => [n]
  | [], _ => []
  | c :: cs, st =>
    if c.isDigit then
      match st with
      | none => scanPlaceholders cs none
      | some none => scanPlaceholders cs (some (some (c.toNat - 48)))
      | some (some n) => scanPlaceholders cs (some (some (n * 10 + (c.toNat - 48))))
    else
      (match st with
        | some (some n) => [n]
        | _ => []) ++ scanPlaceholders cs (if c = '$' then some none else none)

/-- The numbers of the placeholders `$N` that appear in a text, read left to right. -/
def placeholders (s : String) : List Nat := scanPlaceholders s.data none

/-! ## Lemmas -/

theorem string_length_eq_zero (s : String) : s.length = 0 ↔ s = "" := by
  constructor
  · intro h
    have hd : s.data = [] := List.length_eq_zero.mp h
    exact String.ext hd
  · intro h; rw [h]; rfl

theorem mapGet_mapSet_self {κ ν : Type} [DecidableEq κ] (m : List (κ × ν)) (k : κ) (v : ν) :
    mapGet (mapSet m k v) k = some v := by
  induction m with
  | nil => simp [mapSet, mapGet]
  | cons x rest ih =>
    obtain ⟨k0, v0⟩ := x
    by_cases h : k0 = k
    · simp [mapSet, mapGet, h]
    · simp [mapSet, mapGet, h, ih]

theorem mapGet_mapSet_ne {κ ν : Type} [DecidableEq κ] (m : List (κ × ν)) (k k1 : κ) (v : ν)
    (hne : k ≠ k1) : mapGet (mapSet m k v) k1 = mapGet m k1 := by
  induction m with
  | nil => simp [mapSet, mapGet, hne]
  | cons x rest ih =>
    obtain ⟨k0, v0⟩ := x
    by_cases h : k0 = k
    · subst h; simp [mapSet, mapGet, hne]
    · by_cases h1 : k0 = k1
      · subst h1; simp [mapSet, mapGet, h]
      · simp [mapSet, mapGet, h, h1, ih]

theorem foldl_append_singleton {α β : Type} (g : α → β) (l : List α) :
    ∀ acc : List β, l.foldl (fun res f => res ++ [g f]) acc = acc ++ l.map g := by
  induction l with
  | nil => intro acc; simp
  | cons x rest ih => intro acc; simp [ih]

theorem typeFileds_struct (name : String) (fields : List StructField) :
    typeFileds (.struct name fields) = some (fields.map typeFiledsEntry) := by
  simp [typeFileds, foldl_append_singleton]

theorem typeFiledsEntry_valid (f : StructField) :
    (typeFiledsEntry f).valid = true ↔ f.dbTag ≠ "-" := by
  unfold typeFiledsEntry getTag EMPTY_TAG
  by_cases h0 : f.dbTag.length = 0
  · have h1 : f.dbTag = "" := (string_length_eq_zero _).mp h0
    simp [h1]
  · have hd : ¬ ("-" : String).length = 0 := by decide
    by_cases h1 : f.dbTag = "-"
    · simp [h1, hd]
    · simp [h0, h1]

theorem typeFiledsEntry_tag (f : StructField) (h : (typeFiledsEntry f).valid = true) :
    (typeFiledsEntry f).tag = if f.dbTag = "" then f.Name else f.dbTag := by
  have hne : f.dbTag ≠ "-" := (typeFiledsEntry_valid f).mp h
  unfold typeFiledsEntry getTag EMPTY_TAG
  by_cases h0 : f.dbTag.length = 0
  · have h1 : f.dbTag = "" := (string_length_eq_zero _).mp h0
    simp [h1]
  · have h1 : f.dbTag ≠ "" := fun e => h0 ((string_length_eq_zero _).mpr e)
    simp [h0, h1, hne]

theorem foldl_valid_tags (l : List field) :
    ∀ acc : List String,
      l.foldl (fun columns f => if f.valid then columns ++ [f.tag] else columns) acc =
        acc ++ (l.filter fun f => f.valid).map fun f => f.tag := by
  induction l with
  | nil => intro acc; simp
  | cons x rest ih =>
    intro acc
    by_cases hx : x.valid = true <;> simp [ih, hx]

theorem cacheTypeFileds_miss (m : Snapshot) (t : RType) (h : m.get t = none) :
    cacheTypeFileds m t = ((typeFileds t).getD [], mapSet m t (some ((typeFileds t).getD []))) := by
  unfold cacheTypeFileds
  rw [h]
  cases typeFileds t <;> rfl

theorem cacheTypeFileds_hit (m : Snapshot) (t : RType) (f : List field) (h : m.get t = some f) :
    cacheTypeFileds m t = (f, m) := by
  unfold cacheTypeFileds
  rw [h]

theorem get_mapSet_self (m : Snapshot) (t : RType) (f : List field) :
    Snapshot.get (mapSet m t (some f)) t = some f := by
  unfold Snapshot.get
  rw [mapGet_mapSet_self]

theorem get_mapSet_ne (m : Snapshot) (t t1 : RType) (f : List field) (h : t ≠ t1) :
    Snapshot.get (mapSet m t (some f)) t1 = Snapshot.get m t1 := by
  unfold Snapshot.get
  rw [mapGet_mapSet_ne _ _ _ _ h]

theorem snapshotOK_step (m : Snapshot) (t : RType) (h : SnapshotOK m) :
    SnapshotOK (cacheTypeFileds m t).2 := by
  cases hg : m.get t with
  | some f => rw [cacheTypeFileds_hit m t f hg]; exact h
  | none =>
    rw [cacheTypeFileds_miss m t hg]
    intro t1 f1 h1
    by_cases e : t = t1
    · subst e
      rw [get_mapSet_self] at h1
      exact (Option.some.inj h1).symm
    · rw [get_mapSet_ne _ _ _ _ e] at h1
      exact h t1 f1 h1

theorem snapshotOK_of_reachable (m : Snapshot) (h : Reachable m) : SnapshotOK m := by
  induction h with
  | empty => intro t f hf; simp [Snapshot.get, mapGet] at hf
  | step m t _ ih => exact snapshotOK_step m t ih

theorem cacheTypeFileds_fst (m : Snapshot) (t : RType) (h : SnapshotOK m) :
    (cacheTypeFileds m t).1 = (typeFileds t).getD [] := by
  cases hg : m.get t with
  | some f => rw [cacheTypeFileds_hit m t f hg]; exact h t f hg
  | none => rw [cacheTypeFileds_miss m t hg]

theorem cacheTypeFileds_again (m : Snapshot) (t : RType) :
    cacheTypeFileds (cacheTypeFileds m t).2 t =
      ((cacheTypeFileds m t).1, (cacheTypeFileds m t).2) := by
  cases hg : m.get t with
  | some f =>
    rw [cacheTypeFileds_hit m t f hg]
    exact cacheTypeFileds_hit m t f hg
  | none =>
    rw [cacheTypeFileds_miss m t hg]
    exact cacheTypeFileds_hit _ t _ (get_mapSet_self m t _)

theorem GetColumns_fst (m : Snapshot) (model : DBInterface) (h : SnapshotOK m) :
    (GetColumns m model).1 =
      (((typeFileds model.typ).getD []).filter fun f => f.valid).map fun f => f.tag := by
  unfold GetColumns
  simp only
  rw [foldl_valid_tags, cacheTypeFileds_fst m model.typ h]
  simp

theorem Join_nil (sep : String) : Join [] sep = "" := rfl

theorem Join_singleton (a sep : String) : Join [a] sep = a := rfl

theorem updateMarks_eq (c : Int) (l : List (String × Value)) :
    ∀ (n : Nat) (marks : List String) (args : List Value),
      updateMarks l marks args (c + n) =
        (marks ++ (l.enumFrom n).map (fun p => p.2.1 ++ "=$" ++ toString (c + (p.1 : Int))),
          args ++ l.map Prod.snd, c + n + l.length) := by
  induction l with
  | nil => intro n marks args; simp [updateMarks]
  | cons x rest ih =>
    intro n marks args
    obtain ⟨k, v⟩ := x
    have h : c + (n : Int) + 1 = c + ((n + 1 : Nat) : Int) := by push_cast; ring
    simp only [updateMarks, List.enumFrom_cons, List.map_cons, List.length_cons]
    rw [h, ih (n + 1)]
    simp only [List.append_assoc, List.singleton_append]
    congr 2
    push_cast; ring

theorem GenerateSql_of_valid (m : Snapshot) (so : SelectOrm) (h : so.valid) :
    (so.GenerateSql m).1 =
      if so.filter.length ≠ 0 then
        (filterLoop so.filter [] [] 1).map fun r =>
          GenerateSqlTail so (so.head m ++ " WHERE " ++ Join r.1 " AND ") r.2.1 r.2.2
      else some (GenerateSqlTail so (so.head m) [] 1) := by
  unfold SelectOrm.valid at h
  unfold SelectOrm.GenerateSql SelectOrm.head SelectOrm.cols SelectOrm.table
  rw [if_neg h]
  by_cases hc : so.columns.length = 0 <;> by_cases ht : so.tableName.length = 0 <;>
    by_cases hf : so.filter.length = 0 <;>
    cases hm : so.model <;> simp_all <;>
    cases hl : filterLoop so.filter [] [] 1 <;> simp

theorem GenerateSql_of_not_valid (m : Snapshot) (so : SelectOrm) (h : ¬ so.valid) :
    so.GenerateSql m = (some ⟨"", [], some GdbError.invalidSelectErr⟩, m) := by
  unfold SelectOrm.valid at h
  unfold SelectOrm.GenerateSql
  rw [if_pos (not_not.mp h)]

theorem GenerateSqlTail_eq (so : SelectOrm) (sb : String) (args : List Value) (count : Int) :
    GenerateSqlTail so sb args count =
      ⟨sb ++ so.groupOrder ++
          (if so.limit > 0 then " LIMIT $" ++ toString count else "") ++
          (if so.offset > 0 then
            " OFFSET $" ++ toString (if so.limit > 0 then count + 1 else count) else ""),
        args ++ (if so.limit > 0 then [Value.int so.limit] else []) ++
          (if so.offset > 0 then [Value.int so.offset] else []),
        none⟩ := by
  unfold GenerateSqlTail SelectOrm.groupOrder
  by_cases hg : so.groupBy.length = 0 <;> by_cases ho : so.orderBy.length = 0 <;>
    by_cases hl : so.limit > 0 <;> by_cases hf : so.offset > 0 <;>
    simp [hg, ho, hl, hf, String.append_assoc]

theorem notInItems_eq (items : List Value) :
    ∀ (tt : List String) (args : List Value) (count : Int),
      (notInItems items tt args count).2 = (args ++ items, count + items.length) := by
  induction items with
  | nil => intro tt args count; simp [notInItems]
  | cons x rest ih =>
    intro tt args count
    simp only [notInItems, ih, List.length_cons]
    congr 1
    · simp
    · push_cast; ring

theorem filterClause_some (k : String) (c : Conditions) (args : List Value) (count : Int)
    (h : c.op ≠ EQUAL → c.op ≠ NOTEQUAl → c.op ≠ IN → ∃ items, c.value = Value.slice items) :
    ∃ r, filterClause k c args count = some r ∧ count ≤ r.2.2 := by
  unfold filterClause
  by_cases h1 : c.op = EQUAL
  · simp only [if_pos h1]
    exact ⟨_, rfl, by simp⟩
  · by_cases h2 : c.op = NOTEQUAl
    · simp only [if_neg h1, if_pos h2]
      exact ⟨_, rfl, by simp⟩
    · by_cases h3 : c.op = IN
      · simp only [if_neg h1, if_neg h2, if_pos h3]
        exact ⟨_, rfl, by simp⟩
      · obtain ⟨items, hi⟩ := h h1 h2 h3
        simp only [h1, h2, h3, hi, if_false]
        refine ⟨_, rfl, ?_⟩
        have := notInItems_eq items [] args count
        simp only [this]
        omega

theorem filterLoop_some (l : List (String × Conditions)) :
    ∀ (marks : List String) (args : List Value) (count : Int),
      (∀ k c, (k, c) ∈ l → c.op ≠ EQUAL → c.op ≠ NOTEQUAl → c.op ≠ IN →
        ∃ items, c.value = Value.slice items) →
      ∃ r, filterLoop l marks args count = some r ∧ count ≤ r.2.2 := by
  induction l with
  | nil => intro marks args count _; exact ⟨_, rfl, le_refl _⟩
  | cons x rest ih =>
    intro marks args count h
    obtain ⟨k, c⟩ := x
    obtain ⟨r1, hr1, hle1⟩ := filterClause_some k c args count
      (h k c (List.mem_cons_self _ _))
    obtain ⟨r2, hr2, hle2⟩ := ih (marks ++ [r1.1]) r1.2.1 r1.2.2
      (fun k1 c1 hm => h k1 c1 (List.mem_cons_of_mem _ hm))
    refine ⟨r2, ?_, le_trans hle1 hle2⟩
    simp only [filterLoop, hr1]
    exact hr2

theorem filter_of_Filter (so : SelectOrm) (k : String) (v : Value) (ops : List Operation)
    (hf : so.filter = []) :
    (so.Filter k v ops).filter =
      [(k, ⟨match ops with | [] => EQUAL | [o] => o | _ => 0, v⟩)] := by
  simp [SelectOrm.Filter, hf, mapSet]

theorem valid_Filter (so : SelectOrm) (k : String) (v : Value) (ops : List Operation) :
    (so.Filter k v ops).valid ↔ so.valid := Iff.rfl

theorem head_Filter (m : Snapshot) (so : SelectOrm) (k : String) (v : Value)
    (ops : List Operation) : (so.Filter k v ops).head m = so.head m := rfl

theorem groupOrder_Filter (so : SelectOrm) (k : String) (v : Value)
    (ops : List Operation) : (so.Filter k v ops).groupOrder = so.groupOrder := rfl

/-! ## The claims -/

/-- C1 (defect of the code): for every cache snapshot, model, key `k` and value
sequence, `GenerateSql` on the single filter built by `In(k, v1, ..., vn)` returns
the text `SELECT <cols> FROM <table> WHERE k IN (` with no placeholder, no closing
bracket and an empty argument list; so `In("id", 1, 2, 3)` on the example model
returns `SELECT id, name FROM users WHERE id IN (` and no argument. -/
theorem C1_In_renders_no_placeholder :
    (∀ (m : Snapshot) (model : DBInterface) (k : String) (vs : List Value),
      (SelectOrm.GenerateSql m (SelectOrm.In { model := some model } k vs)).1 =
        some ⟨"SELECT " ++ Join (GetColumns m model).1 ", " ++ " FROM " ++ model.TableName ++
          " WHERE " ++ k ++ " IN (", [], none⟩) ∧
    (SelectOrm.GenerateSql []
        (SelectOrm.In { model := some exampleModel } "id" [.int 1, .int 2, .int 3])).1 =
      some ⟨"SELECT id, name FROM users WHERE id IN (", [], none⟩ := by
  refine ⟨?_, by decide⟩
  intro m model k vs
  have hv : (SelectOrm.In { model := some model } k vs).valid := by
    simp [SelectOrm.valid, SelectOrm.In, SelectOrm.Filter]
  rw [GenerateSql_of_valid m _ hv]
  simp [SelectOrm.In, SelectOrm.Filter, mapSet, filterLoop, filterClause, IN, EQUAL, NOTEQUAl,
    GenerateSqlTail_eq, SelectOrm.groupOrder, SelectOrm.head, SelectOrm.cols, SelectOrm.table,
    Join, String.append_assoc]

/-- C2 (defect of the code): for every model and data list, `GenerateUpdate` with an
empty conditions map returns the empty SQL text (the result `sql` is never assigned
on that path), the argument list `[v1, ..., vn]` and no error; so data
`{name: "bob"}` on the example model returns the text `""`. -/
theorem C2_GenerateUpdate_no_conditions_empty_sql :
    (∀ (model : DBInterface) (data : List (String × Value)),
      GenerateUpdate (some model) data [] = some ⟨"", data.map Prod.snd, none⟩) ∧
    GenerateUpdate (some exampleModel) [("name", .str "bob")] [] =
      some ⟨"", [.str "bob"], none⟩ := by
  refine ⟨?_, by decide⟩
  intro model data
  have h1 := updateMarks_eq 1 data 0 [] []
  simp only [Nat.cast_zero, add_zero, List.nil_append] at h1
  simp [GenerateUpdate, h1]

/-- C3: for every model with table name `t`, every data list `[(c1,v1), ..., (cn,vn)]`
in iteration order and every single condition `(c, v)`, `GenerateUpdate` returns, with
no error, the text `UPDATE t SET c1=$1, ..., cn=$n WHERE c=$(n+1)` and the argument
list `[v1, ..., vn, v]`. -/
theorem C3_GenerateUpdate_one_condition (model : DBInterface)
    (data : List (String × Value)) (c : String) (v : Value) :
    GenerateUpdate (some model) data [(c, v)] =
      some ⟨"UPDATE " ++ model.TableName ++ " SET " ++
              Join (data.enum.map fun p => p.2.1 ++ "=$" ++ toString ((p.1 : Int) + 1)) ", " ++
              " WHERE " ++ c ++ "=$" ++ toString ((data.length : Int) + 1),
            data.map Prod.snd ++ [v], none⟩ := by
  have h1 := updateMarks_eq 1 data 0 [] []
  have h2 := updateMarks_eq (1 + data.length) [(c, v)] 0 [] ([] ++ data.map Prod.snd)
  simp only [Nat.cast_zero, add_zero, List.nil_append] at h1 h2
  simp only [GenerateUpdate, h1, h2]
  simp [List.enum, Join, String.append_assoc, add_comm]

/-- C4: `GenerateSql` returns the invalid-select error if and only if the specification
has no model and (the explicit table name is empty or the explicit column list is
empty); it then returns the empty text and the empty argument list (and leaves the
cache as it is); every other specification whose `NOT IN` values are sequences makes
it return with no error. -/
theorem C4_invalid_select_iff (m : Snapshot) (so : SelectOrm) :
    ((∃ r, (so.GenerateSql m).1 = some r ∧ r.err = some GdbError.invalidSelectErr) ↔
        (so.model = none ∧ (so.tableName = "" ∨ so.columns = []))) ∧
    ((so.model = none ∧ (so.tableName = "" ∨ so.columns = [])) →
        so.GenerateSql m = (some ⟨"", [], some GdbError.invalidSelectErr⟩, m)) ∧
    (¬ (so.model = none ∧ (so.tableName = "" ∨ so.columns = [])) → so.seqValues →
        ∃ r, (so.GenerateSql m).1 = some r ∧ r.err = none) := by
  have hiff : (so.model = none ∧ (so.tableName = "" ∨ so.columns = [])) ↔ ¬ so.valid := by
    unfold SelectOrm.valid
    rw [not_not, string_length_eq_zero, List.length_eq_zero]
  have hok : so.valid → so.seqValues → ∃ r, (so.GenerateSql m).1 = some r ∧ r.err = none := by
    intro hv hs
    rw [GenerateSql_of_valid m so hv]
    by_cases hf : so.filter.length = 0
    · simp [hf, GenerateSqlTail_eq]
    · obtain ⟨r, hr, _⟩ := filterLoop_some so.filter [] [] 1 hs
      simp [hf, hr, GenerateSqlTail_eq]
  refine ⟨⟨?_, ?_⟩, ?_, ?_⟩
  · rintro ⟨r, hr, he⟩
    by_contra hn
    have hv : so.valid := by
      by_contra h
      exact hn (hiff.mpr h)
    rw [GenerateSql_of_valid m so hv] at hr
    by_cases hf : so.filter.length = 0
    · simp [hf, GenerateSqlTail_eq] at hr
      rw [← hr] at he
      simp at he
    · cases hl : filterLoop so.filter [] [] 1 with
      | none => simp [hf, hl] at hr
      | some x =>
        simp [hf, hl, GenerateSqlTail_eq] at hr
        rw [← hr] at he
        simp at he
  · intro h
    rw [GenerateSql_of_not_valid m so (hiff.mp h)]
    exact ⟨_, rfl, rfl⟩
  · intro h
    exact GenerateSql_of_not_valid m so (hiff.mp h)
  · intro h hs
    exact hok (by by_contra hv; exact h (hiff.mpr hv)) hs

/-- Witness of C4: the empty specification is rejected with the empty text, and the
specification with only the example model is rendered with no error. -/
theorem C4_invalid_select_iff_witness :
    ((({} : SelectOrm).model = none ∧
        (({} : SelectOrm).tableName = "" ∨ ({} : SelectOrm).columns = [])) ∧
      SelectOrm.GenerateSql [] {} = (some ⟨"", [], some GdbError.invalidSelectErr⟩, [])) ∧
    (¬ ((({ model := some exampleModel } : SelectOrm)).model = none ∧
        ((({ model := some exampleModel } : SelectOrm)).tableName = "" ∨
          (({ model := some exampleModel } : SelectOrm)).columns = [])) ∧
      (({ model := some exampleModel } : SelectOrm)).seqValues ∧
      ∃ r, (SelectOrm.GenerateSql [] { model := some exampleModel }).1 = some r ∧
        r.err = none) :=
  ⟨⟨⟨rfl, Or.inl rfl⟩, (C4_invalid_select_iff [] {}).2.1 ⟨rfl, Or.inl rfl⟩⟩,
    ⟨by simp, by intro k c h; simp at h,
      (C4_invalid_select_iff [] { model := some exampleModel }).2.2 (by simp)
        (by intro k c h; simp at h)⟩⟩

/-- C5: for every model whose field table (as `typeFileds` computes it) is `table` and
whose table name is `T`, and every cache the program can have built, `GenerateSql` on a
specification with only that model returns the text `SELECT t1, ..., tn FROM T`, where
`t1, ..., tn` are the tags of the valid entries of `table` in order, an empty argument
list and no error. -/
theorem C5_model_only_select (m : Snapshot) (model : DBInterface) (table : List field)
    (hm : Reachable m) (ht : typeFileds model.typ = some table) :
    (SelectOrm.GenerateSql m { model := some model }).1 =
      some ⟨"SELECT " ++ Join ((table.filter fun f => f.valid).map fun f => f.tag) ", " ++
        " FROM " ++ model.TableName, [], none⟩ := by
  have hv : ({ model := some model } : SelectOrm).valid := by simp [SelectOrm.valid]
  have hc := GetColumns_fst m model (snapshotOK_of_reachable m hm)
  rw [ht] at hc
  rw [GenerateSql_of_valid m _ hv]
  simp [GenerateSqlTail_eq, SelectOrm.groupOrder, SelectOrm.head, SelectOrm.cols,
    SelectOrm.table, hc]

/-- Witness of C5: the entity with fields `ID` (tag `id`), `Name` (tag `name`) and
`Hidden` (tag `-`) gives `SELECT id, name FROM users`. -/
theorem C5_model_only_select_witness :
    Reachable [] ∧
    typeFileds exampleModel.typ = some exampleTable ∧
    (SelectOrm.GenerateSql [] { model := some exampleModel }).1 =
      some ⟨"SELECT id, name FROM users", [], none⟩ :=
  ⟨Reachable.empty, by decide,
    (C5_model_only_select [] exampleModel exampleTable Reachable.empty (by decide)).trans
      (by decide)⟩

/-- C6: for every column name `k` and value `v`, a valid specification whose only
filter is `Filter(k, v)`, with no group-by, order-by, limit or offset, makes
`GenerateSql` return the text `SELECT <cols> FROM <table> WHERE k=$1` and the argument
list `[v]`, with no error. -/
theorem C6_single_equality_filter (m : Snapshot) (so : SelectOrm) (k : String) (v : Value)
    (hv : so.valid) (hf : so.filter = []) (hg : so.groupBy = []) (ho : so.orderBy = "")
    (hl : so.limit ≤ 0) (hoff : so.offset ≤ 0) :
    ((so.Filter k v []).GenerateSql m).1 =
      some ⟨"SELECT " ++ Join (so.cols m) ", " ++ " FROM " ++ so.table ++
        " WHERE " ++ k ++ "=$1", [v], none⟩ := by
  have h1 : ("=$" ++ toString (1 : Int) : String) = "=$1" := by decide
  rw [GenerateSql_of_valid m _ ((valid_Filter so k v []).mpr hv), filter_of_Filter so k v [] hf,
    head_Filter]
  simp [filterLoop, filterClause, GenerateSqlTail_eq, SelectOrm.groupOrder, SelectOrm.Filter,
    SelectOrm.head, hg, ho, not_lt.mpr hl, not_lt.mpr hoff, Join, h1, String.append_assoc]

/-- Witness of C6: the filter `status = "active"` on the example model. -/
theorem C6_single_equality_filter_witness :
    (({ model := some exampleModel } : SelectOrm)).valid ∧
    (SelectOrm.GenerateSql []
        (SelectOrm.Filter { model := some exampleModel } "status" (.str "active") [])).1 =
      some ⟨"SELECT id, name FROM users WHERE status=$1", [.str "active"], none⟩ :=
  ⟨by decide,
    (C6_single_equality_filter [] { model := some exampleModel } "status" (.str "active")
      (by decide) rfl rfl rfl (le_refl _) (le_refl _)).trans (by decide)⟩

/-- C7: for every valid specification (its `NOT IN` values being sequences) with
limit > 0 and offset > 0, the text returned by `GenerateSql` ends with
` LIMIT $N OFFSET $(N+1)` for some `N ≥ 1`, and the argument list ends with the limit
and then the offset; with no filters `N = 1` and the argument list is exactly
`[limit, offset]`. -/
theorem C7_limit_offset_suffix (m : Snapshot) (so : SelectOrm)
    (hv : so.valid) (hs : so.seqValues) (hl : 0 < so.limit) (ho : 0 < so.offset) :
    ∃ (N : Int) (pre : String) (args0 : List Value), 1 ≤ N ∧
      (so.GenerateSql m).1 =
        some ⟨pre ++ " LIMIT $" ++ toString N ++ " OFFSET $" ++ toString (N + 1),
          args0 ++ [Value.int so.limit, Value.int so.offset], none⟩ ∧
      (so.filter = [] → N = 1 ∧ args0 = []) := by
  rw [GenerateSql_of_valid m so hv]
  by_cases hf : so.filter = []
  · refine ⟨1, so.head m ++ so.groupOrder, [], le_refl _, ?_, fun _ => ⟨rfl, rfl⟩⟩
    simp [hf, GenerateSqlTail_eq, hl, ho, String.append_assoc]
  · obtain ⟨r, hr, hle⟩ := filterLoop_some so.filter [] [] 1 hs
    refine ⟨r.2.2, so.head m ++ " WHERE " ++ Join r.1 " AND " ++ so.groupOrder, r.2.1, hle, ?_,
      fun h => absurd h hf⟩
    simp [hf, hr, GenerateSqlTail_eq, hl, ho, String.append_assoc]

/-- Witness of C7: limit 10 and offset 5 on the example model, with no filter. -/
theorem C7_limit_offset_suffix_witness :
    (({ model := some exampleModel, limit := 10, offset := 5 } : SelectOrm)).valid ∧
    (({ model := some exampleModel, limit := 10, offset := 5 } : SelectOrm)).seqValues ∧
    ∃ (N : Int) (pre : String) (args0 : List Value), 1 ≤ N ∧
      (SelectOrm.GenerateSql [] { model := some exampleModel, limit := 10, offset := 5 }).1 =
        some ⟨pre ++ " LIMIT $" ++ toString N ++ " OFFSET $" ++ toString (N + 1),
          args0 ++ [Value.int 10, Value.int 5], none⟩ ∧
      ((({ model := some exampleModel, limit := 10, offset := 5 } : SelectOrm)).filter = [] →
        N = 1 ∧ args0 = []) :=
  ⟨by decide, by intro k c h; simp at h,
    C7_limit_offset_suffix [] { model := some exampleModel, limit := 10, offset := 5 }
      (by decide) (by intro k c h; simp at h) (by decide) (by decide)⟩

/-- C8: for every column name `k` and value `v`, a valid specification whose only
filter is `Filter(k, v, NOTEQUAl)` renders the clause `k!=$1` in the WHERE part and
appends no argument for it: with no limit and no offset the argument list is empty;
with a positive limit the LIMIT placeholder is `$2` and the argument list is `[limit]`
(followed by ` OFFSET $3` and the offset when the offset is positive too); with only a
positive offset the OFFSET placeholder is `$2` and the argument list is `[offset]`. -/
theorem C8_not_equal_appends_no_argument (m : Snapshot) (so : SelectOrm) (k : String)
    (v : Value) (hv : so.valid) (hf : so.filter = []) :
    (so.limit ≤ 0 → so.offset ≤ 0 →
      ((so.Filter k v [NOTEQUAl]).GenerateSql m).1 =
        some ⟨"SELECT " ++ Join (so.cols m) ", " ++ " FROM " ++ so.table ++
          " WHERE " ++ k ++ "!=$1" ++ so.groupOrder, [], none⟩) ∧
    (0 < so.limit → so.offset ≤ 0 →
      ((so.Filter k v [NOTEQUAl]).GenerateSql m).1 =
        some ⟨"SELECT " ++ Join (so.cols m) ", " ++ " FROM " ++ so.table ++
          " WHERE " ++ k ++ "!=$1" ++ so.groupOrder ++ " LIMIT $2",
          [Value.int so.limit], none⟩) ∧
    (0 < so.limit → 0 < so.offset →
      ((so.Filter k v [NOTEQUAl]).GenerateSql m).1 =
        some ⟨"SELECT " ++ Join (so.cols m) ", " ++ " FROM " ++ so.table ++
          " WHERE " ++ k ++ "!=$1" ++ so.groupOrder ++ " LIMIT $2" ++ " OFFSET $3",
          [Value.int so.limit, Value.int so.offset], none⟩) ∧
    (so.limit ≤ 0 → 0 < so.offset →
      ((so.Filter k v [NOTEQUAl]).GenerateSql m).1 =
        some ⟨"SELECT " ++ Join (so.cols m) ", " ++ " FROM " ++ so.table ++
          " WHERE " ++ k ++ "!=$1" ++ so.groupOrder ++ " OFFSET $2",
          [Value.int so.offset], none⟩) := by
  have h1 : ("!=$" ++ toString (1 : Int) : String) = "!=$1" := by decide
  have h2 : (" LIMIT $" ++ toString (2 : Int) : String) = " LIMIT $2" := by decide
  have h3 : (" OFFSET $" ++ toString (3 : Int) : String) = " OFFSET $3" := by decide
  have h4 : (" OFFSET $" ++ toString (2 : Int) : String) = " OFFSET $2" := by decide
  have hg : ((so.Filter k v [NOTEQUAl]).GenerateSql m).1 =
      some (GenerateSqlTail (so.Filter k v [NOTEQUAl])
        (so.head m ++ " WHERE " ++ (k ++ "!=$1")) [] 2) := by
    rw [GenerateSql_of_valid m _ ((valid_Filter so k v [NOTEQUAl]).mpr hv),
      filter_of_Filter so k v [NOTEQUAl] hf, head_Filter]
    simp [filterLoop, filterClause, NOTEQUAl, EQUAL, Join, h1]
  rw [hg, GenerateSqlTail_eq, groupOrder_Filter]
  have hlim : (so.Filter k v [NOTEQUAl]).limit = so.limit := rfl
  have hoff : (so.Filter k v [NOTEQUAl]).offset = so.offset := rfl
  rw [hlim, hoff]
  refine ⟨?_, ?_, ?_, ?_⟩ <;> intro a b
  · simp [not_lt.mpr a, not_lt.mpr b, SelectOrm.head, String.append_assoc]
  · simp [a, not_lt.mpr b, SelectOrm.head, String.append_assoc, h2]
  · simp [a, b, SelectOrm.head, String.append_assoc, h2, h3]
  · simp [not_lt.mpr a, b, SelectOrm.head, String.append_assoc, h4]

/-- Witness of C8: `Filter("status", "active", NOTEQUAl)` on the example model, with no
limit and with limit 10. -/
theorem C8_not_equal_appends_no_argument_witness :
    ((({ model := some exampleModel } : SelectOrm)).valid ∧
      (SelectOrm.GenerateSql []
        (SelectOrm.Filter { model := some exampleModel } "status" (.str "active")
          [NOTEQUAl])).1 =
        some ⟨"SELECT id, name FROM users WHERE status!=$1", [], none⟩) ∧
    ((({ model := some exampleModel, limit := 10 } : SelectOrm)).valid ∧
      (SelectOrm.GenerateSql []
        (SelectOrm.Filter { model := some exampleModel, limit := 10 } "status"
          (.str "active") [NOTEQUAl])).1 =
        some ⟨"SELECT id, name FROM users WHERE status!=$1 LIMIT $2", [.int 10], none⟩) :=
  ⟨⟨by decide,
      ((C8_not_equal_appends_no_argument [] { model := some exampleModel } "status"
        (.str "active") (by decide) rfl).1 (le_refl _) (le_refl _)).trans (by decide)⟩,
    ⟨by decide,
      ((C8_not_equal_appends_no_argument [] { model := some exampleModel, limit := 10 }
        "status" (.str "active") (by decide) rfl).2.1 (by decide) (le_refl _)).trans
        (by decide)⟩⟩

/-- C9: for every record type with declared fields `fs`, `typeFileds` returns a table
with one entry per field, in declaration order; the entry of a field is valid if and
only if the field's db tag is not `"-"`, and the tag of a valid entry is the field's
name when the db tag is empty and the db tag otherwise; `GetColumns`, on a model of
that type and a cache the program can have built, returns exactly the tags of the
valid entries, in that order. -/
theorem C9_typeFileds_table (name : String) (fs : List StructField) :
    ∃ table, typeFileds (.struct name fs) = some table ∧
      table.length = fs.length ∧
      List.Forall₂
        (fun f e => (e.valid = true ↔ f.dbTag ≠ "-") ∧
          (e.valid = true → e.tag = if f.dbTag = "" then f.Name else f.dbTag))
        fs table ∧
      ∀ (m : Snapshot) (tableName : String), Reachable m →
        (GetColumns m ⟨.struct name fs, tableName⟩).1 =
          (table.filter fun e => e.valid).map fun e => e.tag := by
  refine ⟨fs.map typeFiledsEntry, typeFileds_struct name fs, by simp, ?_, ?_⟩
  · rw [List.forall₂_map_right_iff, List.forall₂_same]
    intro f _
    exact ⟨typeFiledsEntry_valid f, typeFiledsEntry_tag f⟩
  · intro m tableName hm
    rw [GetColumns_fst m _ (snapshotOK_of_reachable m hm)]
    simp only [typeFileds_struct, Option.getD_some]

/-- Witness of C9: the columns of the example entity, from the empty cache. -/
theorem C9_typeFileds_table_witness :
    ∃ table, typeFileds exampleEntity = some table ∧
      table.length = 3 ∧
      (GetColumns [] ⟨exampleEntity, "users"⟩).1 =
        (table.filter fun e => e.valid).map fun e => e.tag :=
  match C9_typeFileds_table "Entity"
      [⟨"ID", "id", ⟨.base .Int, "int"⟩, [0]⟩,
       ⟨"Name", "name", ⟨.base .String, "string"⟩, [1]⟩,
       ⟨"Hidden", "-", ⟨.base .String, "string"⟩, [2]⟩] with
  | ⟨table, h1, h2, _, h4⟩ => ⟨table, h1, h2, h4 [] "users" Reachable.empty⟩

/-- C10: from every snapshot the cache can hold and for every type `t`, two calls of
`cacheTypeFileds(t)` in sequence return the same table, which is the table of
`typeFileds(t)` (the empty table when that is nil), and the second call leaves the
snapshot unchanged. -/
theorem C10_cacheTypeFileds_twice (m : Snapshot) (t : RType) (h : Reachable m) :
    (cacheTypeFileds (cacheTypeFileds m t).2 t).1 = (cacheTypeFileds m t).1 ∧
    (cacheTypeFileds m t).1 = (typeFileds t).getD [] ∧
    (cacheTypeFileds (cacheTypeFileds m t).2 t).2 = (cacheTypeFileds m t).2 := by
  rw [cacheTypeFileds_again]
  exact ⟨rfl, cacheTypeFileds_fst m t (snapshotOK_of_reachable m h), rfl⟩

/-- Witness of C10: the example entity behind a pointer, after the cache has resolved
an `int`. -/
theorem C10_cacheTypeFileds_twice_witness :
    Reachable (cacheTypeFileds [] (.other .Int "int")).2 ∧
    ((cacheTypeFileds
        (cacheTypeFileds (cacheTypeFileds [] (.other .Int "int")).2 (.ptr exampleEntity)).2
        (.ptr exampleEntity)).1 =
      (cacheTypeFileds (cacheTypeFileds [] (.other .Int "int")).2 (.ptr exampleEntity)).1 ∧
    (cacheTypeFileds (cacheTypeFileds [] (.other .Int "int")).2 (.ptr exampleEntity)).1 =
      (typeFileds (.ptr exampleEntity)).getD [] ∧
    (cacheTypeFileds
        (cacheTypeFileds (cacheTypeFileds [] (.other .Int "int")).2 (.ptr exampleEntity)).2
        (.ptr exampleEntity)).2 =
      (cacheTypeFileds (cacheTypeFileds [] (.other .Int "int")).2 (.ptr exampleEntity)).2) :=
  ⟨Reachable.step [] _ Reachable.empty,
    C10_cacheTypeFileds_twice _ (.ptr exampleEntity) (Reachable.step [] _ Reachable.empty)⟩

/-! ## Further lemmas and claims -/

theorem GenerateSql_snd (m : Snapshot) (so : SelectOrm) :
    (so.GenerateSql m).2 =
      if so.columns.length ≠ 0 then m
      else
        match so.model with
        | some model => (GetColumns m model).2
        | none => m := by
  unfold SelectOrm.GenerateSql
  by_cases hc : so.columns.length = 0 <;> by_cases ht : so.tableName.length = 0 <;>
    by_cases hf : so.filter.length = 0 <;>
    cases hm : so.model <;> simp_all <;>
    cases hl : filterLoop so.filter [] [] 1 <;> simp

theorem GenerateSql_fst_some (m : Snapshot) (so : SelectOrm) (hv : so.valid)
    (hs : so.seqValues) :
    ∃ marks args count,
      (so.GenerateSql m).1 =
        some (GenerateSqlTail so
          (so.head m ++ (if so.filter.length ≠ 0 then " WHERE " ++ Join marks " AND " else ""))
          args count) := by
  rw [GenerateSql_of_valid m so hv]
  by_cases hf : so.filter.length = 0
  · exact ⟨[], [], 1, by simp [hf]⟩
  · obtain ⟨r, hr, _⟩ := filterLoop_some so.filter [] [] 1 hs
    exact ⟨r.1, r.2.1, r.2.2, by simp [hf, hr, String.append_assoc]⟩

/-- C16: for every valid specification with no filters, `GenerateSql` returns the text
`SELECT <cols> FROM <table>` followed, in this order, by ` GROUP BY g1, ..., gm` exactly
when the group-by list is not empty, ` ORDER BY <orderBy>` exactly when the order-by
string is not empty, ` LIMIT $1` exactly when limit > 0 and ` OFFSET $k` exactly when
offset > 0 (`k = 2` when limit > 0, else `k = 1`); the argument list holds the limit
exactly when limit > 0, then the offset exactly when offset > 0. -/
theorem C16_no_filter_clause_order (m : Snapshot) (so : SelectOrm)
    (hv : so.valid) (hf : so.filter = []) :
    (so.GenerateSql m).1 =
      some ⟨"SELECT " ++ Join (so.cols m) ", " ++ " FROM " ++ so.table ++
          (if so.groupBy ≠ [] then " GROUP BY " ++ Join so.groupBy ", " else "") ++
          (if so.orderBy ≠ "" then " ORDER BY " ++ so.orderBy else "") ++
          (if 0 < so.limit then " LIMIT $1" else "") ++
          (if 0 < so.offset then (if 0 < so.limit then " OFFSET $2" else " OFFSET $1")
            else ""),
        (if 0 < so.limit then [Value.int so.limit] else []) ++
          (if 0 < so.offset then [Value.int so.offset] else []),
        none⟩ := by
  have h1 : (" LIMIT $" ++ toString (1 : Int) : String) = " LIMIT $1" := by decide
  have h2 : (" OFFSET $" ++ toString (1 : Int) : String) = " OFFSET $1" := by decide
  have h3 : (" OFFSET $" ++ toString (2 : Int) : String) = " OFFSET $2" := by decide
  have hg : (so.groupBy.length = 0) ↔ so.groupBy = [] := List.length_eq_zero
  have ho : (so.orderBy.length = 0) ↔ so.orderBy = "" := string_length_eq_zero _
  rw [GenerateSql_of_valid m so hv, GenerateSqlTail_eq]
  unfold SelectOrm.groupOrder SelectOrm.head
  by_cases a : so.groupBy = [] <;> by_cases b : so.orderBy = "" <;>
    by_cases c : 0 < so.limit <;> by_cases d : 0 < so.offset <;>
    simp [hf, a, b, c, d, hg, ho, h1, h2, h3, String.append_assoc]

/-- Witness of C16: group-by, order-by, limit 10 and offset 5 on the example model. -/
theorem C16_no_filter_clause_order_witness :
    (({ model := some exampleModel, groupBy := ["id", "name"], orderBy := "id DESC",
        limit := 10, offset := 5 } : SelectOrm)).valid ∧
    (SelectOrm.GenerateSql []
        { model := some exampleModel, groupBy := ["id", "name"], orderBy := "id DESC",
          limit := 10, offset := 5 }).1 =
      some ⟨"SELECT id, name FROM users GROUP BY id, name ORDER BY id DESC LIMIT $1 OFFSET $2",
        [.int 10, .int 5], none⟩ :=
  ⟨by decide,
    (C16_no_filter_clause_order []
      { model := some exampleModel, groupBy := ["id", "name"], orderBy := "id DESC",
        limit := 10, offset := 5 } (by decide) rfl).trans (by decide)⟩

theorem GenerateSql_model_irrelevant (m : Snapshot) (so : SelectOrm)
    (hc : so.columns ≠ []) (ht : so.tableName ≠ "") (model2 : Option DBInterface) :
    so.GenerateSql m = SelectOrm.GenerateSql m { so with model := model2 } := by
  have hc1 : so.columns.length ≠ 0 := fun h => hc (List.length_eq_zero.mp h)
  have ht1 : so.tableName.length ≠ 0 := fun h => ht ((string_length_eq_zero _).mp h)
  unfold SelectOrm.GenerateSql GenerateSqlTail
  simp [hc1, ht1]

theorem mem_mapSet {κ ν : Type} [DecidableEq κ] (m : List (κ × ν)) (k : κ) (v : ν)
    (hnd : (m.map Prod.fst).Nodup) (k1 : κ) (c : ν) :
    (k1, c) ∈ mapSet m k v ↔ (k1 = k ∧ c = v) ∨ (k1 ≠ k ∧ (k1, c) ∈ m) := by
  induction m with
  | nil =>
    simp only [mapSet, List.mem_singleton, Prod.mk.injEq, List.not_mem_nil, and_false, or_false]
  | cons x rest ih =>
    obtain ⟨k0, v0⟩ := x
    simp only [List.map_cons, List.nodup_cons] at hnd
    obtain ⟨hk0, hrest⟩ := hnd
    by_cases h : k0 = k
    · subst h
      simp only [mapSet, if_true, List.mem_cons, Prod.mk.injEq]
      constructor
      · rintro (⟨rfl, rfl⟩ | hm)
        · exact Or.inl ⟨rfl, rfl⟩
        · refine Or.inr ⟨?_, Or.inr hm⟩
          rintro rfl
          exact hk0 (List.mem_map_of_mem Prod.fst hm)
      · rintro (⟨rfl, rfl⟩ | ⟨hne, (⟨rfl, _⟩ | hm)⟩)
        · exact Or.inl ⟨rfl, rfl⟩
        · exact absurd rfl hne
        · exact Or.inr hm
    · simp only [mapSet, if_neg h, List.mem_cons, Prod.mk.injEq, ih hrest]
      constructor
      · rintro (⟨rfl, rfl⟩ | (hm | hm))
        · exact Or.inr ⟨h, Or.inl ⟨rfl, rfl⟩⟩
        · exact Or.inl hm
        · exact Or.inr ⟨hm.1, Or.inr hm.2⟩
      · rintro (hm | ⟨hne, (hm | hm)⟩)
        · exact Or.inr (Or.inl hm)
        · exact Or.inl hm
        · exact Or.inr (Or.inr ⟨hne, hm⟩)

theorem keys_mapSet {κ ν : Type} [DecidableEq κ] (m : List (κ × ν)) (k : κ) (v : ν) :
    (mapSet m k v).map Prod.fst =
      if k ∈ m.map Prod.fst then m.map Prod.fst else m.map Prod.fst ++ [k] := by
  induction m with
  | nil => simp [mapSet]
  | cons x rest ih =>
    obtain ⟨k0, v0⟩ := x
    by_cases h : k0 = k
    · subst h; simp [mapSet]
    · have h2 : ¬ k = k0 := fun e => h e.symm
      simp only [mapSet, if_neg h, List.map_cons, ih, List.mem_cons, h2, false_or]
      split <;> simp

theorem nodup_keys_mapSet {κ ν : Type} [DecidableEq κ] (m : List (κ × ν)) (k : κ) (v : ν)
    (hnd : (m.map Prod.fst).Nodup) : ((mapSet m k v).map Prod.fst).Nodup := by
  rw [keys_mapSet]
  split
  · exact hnd
  · rename_i h
    rw [List.nodup_append]
    refine ⟨hnd, List.nodup_singleton k, ?_⟩
    intro a ha hb
    rw [List.mem_singleton] at hb
    subst hb
    exact h ha

/-- C12: for every specification (its filter map having one entry per key), key `k` and
conditions `(v1, op1)`, `(v2, op2)`: after `Filter(k, v1, op1)` followed by
`Filter(k, v2, op2)` the filter map holds exactly one condition for `k`, equal to
`(op2, v2)`; the conditions stored under every other key, and the columns, model, table
name, limit, offset, order-by and group-by of the specification are unchanged. -/
theorem C12_Filter_twice_replaces (so : SelectOrm) (k : String) (v1 v2 : Value)
    (op1 op2 : Operation) (hnd : (so.filter.map Prod.fst).Nodup) :
    (∀ c, (k, c) ∈ ((so.Filter k v1 [op1]).Filter k v2 [op2]).filter ↔ c = ⟨op2, v2⟩) ∧
    mapGet ((so.Filter k v1 [op1]).Filter k v2 [op2]).filter k = some ⟨op2, v2⟩ ∧
    ((((so.Filter k v1 [op1]).Filter k v2 [op2]).filter.map Prod.fst).Nodup) ∧
    (∀ k1 c, k1 ≠ k →
      ((k1, c) ∈ ((so.Filter k v1 [op1]).Filter k v2 [op2]).filter ↔ (k1, c) ∈ so.filter)) ∧
    (∀ k1, k1 ≠ k →
      mapGet ((so.Filter k v1 [op1]).Filter k v2 [op2]).filter k1 = mapGet so.filter k1) ∧
    ((so.Filter k v1 [op1]).Filter k v2 [op2]).columns = so.columns ∧
    ((so.Filter k v1 [op1]).Filter k v2 [op2]).model = so.model ∧
    ((so.Filter k v1 [op1]).Filter k v2 [op2]).tableName = so.tableName ∧
    ((so.Filter k v1 [op1]).Filter k v2 [op2]).limit = so.limit ∧
    ((so.Filter k v1 [op1]).Filter k v2 [op2]).offset = so.offset ∧
    ((so.Filter k v1 [op1]).Filter k v2 [op2]).orderBy = so.orderBy ∧
    ((so.Filter k v1 [op1]).Filter k v2 [op2]).groupBy = so.groupBy := by
  have hf : ((so.Filter k v1 [op1]).Filter k v2 [op2]).filter =
      mapSet (mapSet so.filter k ⟨op1, v1⟩) k ⟨op2, v2⟩ := rfl
  have hnd1 := nodup_keys_mapSet so.filter k (⟨op1, v1⟩ : Conditions) hnd
  rw [hf]
  refine ⟨?_, mapGet_mapSet_self _ _ _, nodup_keys_mapSet _ _ _ hnd1, ?_, ?_,
    rfl, rfl, rfl, rfl, rfl, rfl, rfl⟩
  · intro c
    rw [mem_mapSet _ _ _ hnd1]
    constructor
    · rintro (⟨_, h⟩ | ⟨h, _⟩)
      · exact h
      · exact absurd rfl h
    · intro h; exact Or.inl ⟨rfl, h⟩
  · intro k1 c hne
    rw [mem_mapSet _ _ _ hnd1, mem_mapSet _ _ _ hnd]
    constructor
    · rintro (⟨h, _⟩ | ⟨_, (⟨h, _⟩ | ⟨_, h⟩)⟩)
      · exact absurd h hne
      · exact absurd h hne
      · exact h
    · intro h; exact Or.inr ⟨hne, Or.inr ⟨hne, h⟩⟩
  · intro k1 hne
    rw [mapGet_mapSet_ne _ _ _ _ (Ne.symm hne), mapGet_mapSet_ne _ _ _ _ (Ne.symm hne)]

/-- Witness of C12: the key `status` filtered twice in a specification that already
filters `id`. -/
theorem C12_Filter_twice_replaces_witness :
    ((({ filter := [("id", ⟨EQUAL, .int 1⟩)] } : SelectOrm)).filter.map Prod.fst).Nodup ∧
    ((SelectOrm.Filter
        (SelectOrm.Filter { filter := [("id", ⟨EQUAL, .int 1⟩)] } "status" (.str "a") [EQUAL])
        "status" (.str "b") [NOTEQUAl]).filter =
      [("id", ⟨EQUAL, .int 1⟩), ("status", ⟨NOTEQUAl, .str "b"⟩)]) ∧
    mapGet (SelectOrm.Filter
        (SelectOrm.Filter { filter := [("id", ⟨EQUAL, .int 1⟩)] } "status" (.str "a") [EQUAL])
        "status" (.str "b") [NOTEQUAl]).filter "status" = some ⟨NOTEQUAl, .str "b"⟩ :=
  ⟨by decide, by decide,
    (C12_Filter_twice_replaces { filter := [("id", ⟨EQUAL, .int 1⟩)] } "status"
      (.str "a") (.str "b") EQUAL NOTEQUAl (by decide)).2.1⟩

theorem GenerateSql_fst_form (m : Snapshot) (so : SelectOrm) (hv : so.valid)
    (hs : so.seqValues) :
    ∃ rest args, (so.GenerateSql m).1 =
      some ⟨"SELECT " ++ Join (so.cols m) ", " ++ " FROM " ++ so.table ++ rest, args, none⟩ := by
  obtain ⟨marks, args, count, hr⟩ := GenerateSql_fst_some m so hv hs
  rw [GenerateSqlTail_eq] at hr
  refine ⟨(if so.filter.length ≠ 0 then " WHERE " ++ Join marks " AND " else "") ++
      so.groupOrder ++ (if so.limit > 0 then " LIMIT $" ++ toString count else "") ++
      (if so.offset > 0 then
        " OFFSET $" ++ toString (if so.limit > 0 then count + 1 else count) else ""),
    (args ++ if so.limit > 0 then [Value.int so.limit] else []) ++
      (if so.offset > 0 then [Value.int so.offset] else []), ?_⟩
  rw [hr]
  simp only [SelectOrm.head, String.append_assoc]

theorem cols_of_columns (m : Snapshot) (so : SelectOrm) (hc : so.columns ≠ []) :
    so.cols m = so.columns := by
  have hc1 : so.columns.length ≠ 0 := fun h => hc (List.length_eq_zero.mp h)
  simp [SelectOrm.cols, hc1]

theorem cols_of_model (m : Snapshot) (so : SelectOrm) (model : DBInterface)
    (hc : so.columns = []) (hm : so.model = some model) :
    so.cols m = (GetColumns m model).1 := by
  simp [SelectOrm.cols, hc, hm]

theorem table_of_tableName (so : SelectOrm) (ht : so.tableName ≠ "") :
    so.table = so.tableName := by
  have ht1 : so.tableName.length ≠ 0 := fun h => ht ((string_length_eq_zero _).mp h)
  simp [SelectOrm.table, ht1]

theorem table_of_model (so : SelectOrm) (model : DBInterface)
    (ht : so.tableName = "") (hm : so.model = some model) :
    so.table = model.TableName := by
  simp [SelectOrm.table, ht, hm]

theorem GenerateSql_snd_of_columns (m : Snapshot) (so : SelectOrm) (hc : so.columns ≠ []) :
    (so.GenerateSql m).2 = m := by
  have hc1 : so.columns.length ≠ 0 := fun h => hc (List.length_eq_zero.mp h)
  rw [GenerateSql_snd]
  simp [hc1]

/-- C13: for every specification that has a model (its `NOT IN` values being sequences):
with a non-empty explicit column list and a non-empty explicit table name the text
starts `SELECT <explicit columns joined by ", "> FROM <explicit table name>`, the cache
is not consulted, and the result is the same with any other model or with none; with
only explicit columns the table name is the model's `TableName()`; with only an
explicit table name the columns are the model's mapped columns, which on a cache the
program can have built are the tags of the valid entries of its field table. -/
theorem C13_explicit_columns_and_table (m : Snapshot) (so : SelectOrm) (model : DBInterface)
    (hm : so.model = some model) (hs : so.seqValues) :
    (so.columns ≠ [] → so.tableName ≠ "" →
      (∃ rest args, so.GenerateSql m =
        (some ⟨"SELECT " ++ Join so.columns ", " ++ " FROM " ++ so.tableName ++ rest,
          args, none⟩, m)) ∧
      ∀ model2 : Option DBInterface,
        so.GenerateSql m = SelectOrm.GenerateSql m { so with model := model2 }) ∧
    (so.columns ≠ [] → so.tableName = "" →
      ∃ rest args, so.GenerateSql m =
        (some ⟨"SELECT " ++ Join so.columns ", " ++ " FROM " ++ model.TableName ++ rest,
          args, none⟩, m)) ∧
    (so.columns = [] → so.tableName ≠ "" →
      (∃ rest args, (so.GenerateSql m).1 =
        some ⟨"SELECT " ++ Join (GetColumns m model).1 ", " ++ " FROM " ++ so.tableName ++ rest,
          args, none⟩) ∧
      (Reachable m → (GetColumns m model).1 =
        (((typeFileds model.typ).getD []).filter fun f => f.valid).map fun f => f.tag)) := by
  have hv : so.valid := by simp [SelectOrm.valid, hm]
  obtain ⟨rest, args, hr⟩ := GenerateSql_fst_form m so hv hs
  refine ⟨?_, ?_, ?_⟩
  · intro hc ht
    rw [cols_of_columns m so hc, table_of_tableName so ht] at hr
    exact ⟨⟨rest, args, Prod.ext hr (GenerateSql_snd_of_columns m so hc)⟩,
      GenerateSql_model_irrelevant m so hc ht⟩
  · intro hc ht
    rw [cols_of_columns m so hc, table_of_model so model ht hm] at hr
    exact ⟨rest, args, Prod.ext hr (GenerateSql_snd_of_columns m so hc)⟩
  · intro hc ht
    rw [cols_of_model m so model hc hm, table_of_tableName so ht] at hr
    exact ⟨⟨rest, args, hr⟩,
      fun hre => GetColumns_fst m model (snapshotOK_of_reachable m hre)⟩

/-- Witness of C13: explicit columns `a, b` and table `t` on the example model. -/
theorem C13_explicit_columns_and_table_witness :
    (({ model := some exampleModel, columns := ["a", "b"], tableName := "t" } :
        SelectOrm)).seqValues ∧
    SelectOrm.GenerateSql []
        { model := some exampleModel, columns := ["a", "b"], tableName := "t" } =
      SelectOrm.GenerateSql [] { model := none, columns := ["a", "b"], tableName := "t" } ∧
    SelectOrm.GenerateSql []
        { model := some exampleModel, columns := ["a", "b"], tableName := "t" } =
      (some ⟨"SELECT a, b FROM t", [], none⟩, []) :=
  ⟨by intro k c h; simp at h,
    ((C13_explicit_columns_and_table []
      { model := some exampleModel, columns := ["a", "b"], tableName := "t" } exampleModel
      rfl (by intro k c h; simp at h)).1 (by decide) (by decide)).2 none,
    by decide⟩

/-- C20: for every specification that passes the validity test of `GenerateSql` with a
nil model, the explicit column list and the explicit table name are both non-empty, the
text starts with them, the cache is left as it is (`GetColumns` is not called), and
`GenerateSql` returns with no error whenever the `NOT IN` values are sequences: the
nil model is never dereferenced. -/
theorem C20_nil_model_never_consulted (m : Snapshot) (so : SelectOrm)
    (hv : so.valid) (hm : so.model = none) :
    so.columns ≠ [] ∧ so.tableName ≠ "" ∧
    (so.GenerateSql m).2 = m ∧
    (so.seqValues →
      ∃ rest args, (so.GenerateSql m).1 =
        some ⟨"SELECT " ++ Join so.columns ", " ++ " FROM " ++ so.tableName ++ rest,
          args, none⟩) := by
  have hc : so.columns ≠ [] := by
    intro h
    exact hv ⟨hm, Or.inr (List.length_eq_zero.mpr h)⟩
  have ht : so.tableName ≠ "" := by
    intro h
    exact hv ⟨hm, Or.inl ((string_length_eq_zero _).mpr h)⟩
  refine ⟨hc, ht, GenerateSql_snd_of_columns m so hc, ?_⟩
  intro hs
  obtain ⟨rest, args, hr⟩ := GenerateSql_fst_form m so hv hs
  rw [cols_of_columns m so hc, table_of_tableName so ht] at hr
  exact ⟨rest, args, hr⟩

/-- Witness of C20: explicit columns `a, b` and table `t` with no model. -/
theorem C20_nil_model_never_consulted_witness :
    (({ columns := ["a", "b"], tableName := "t" } : SelectOrm)).valid ∧
    (({ columns := ["a", "b"], tableName := "t" } : SelectOrm)).model = none ∧
    (SelectOrm.GenerateSql [] { columns := ["a", "b"], tableName := "t" }).2 = [] :=
  ⟨by decide, rfl,
    (C20_nil_model_never_consulted [] { columns := ["a", "b"], tableName := "t" }
      (by decide) rfl).2.2.1⟩

theorem typeFileds_wrap (ls : List Layer) (t : RType) :
    typeFileds (RType.wrap ls t) = typeFileds t := by
  induction ls with
  | nil => rfl
  | cons l rest ih => cases l <;> simpa [RType.wrap, typeFileds] using ih

theorem get_cacheTypeFileds (m : Snapshot) (t : RType) :
    Snapshot.get (cacheTypeFileds m t).2 t = some (cacheTypeFileds m t).1 := by
  cases hg : m.get t with
  | some f => rw [cacheTypeFileds_hit m t f hg]; exact hg
  | none => rw [cacheTypeFileds_miss m t hg]; exact get_mapSet_self m t _

theorem exists_wrap (t : RType) :
    ∃ ls, (∃ name fs, t = RType.wrap ls (.struct name fs)) ∨
      (∃ k name, t = RType.wrap ls (.other k name)) := by
  induction t with
  | ptr e ih =>
    obtain ⟨ls, h⟩ := ih
    refine ⟨Layer.ptr :: ls, ?_⟩
    rcases h with ⟨n, fs, h⟩ | ⟨k, n, h⟩
    · exact Or.inl ⟨n, fs, by rw [h]; rfl⟩
    · exact Or.inr ⟨k, n, by rw [h]; rfl⟩
  | slice e ih =>
    obtain ⟨ls, h⟩ := ih
    refine ⟨Layer.slice :: ls, ?_⟩
    rcases h with ⟨n, fs, h⟩ | ⟨k, n, h⟩
    · exact Or.inl ⟨n, fs, by rw [h]; rfl⟩
    · exact Or.inr ⟨k, n, by rw [h]; rfl⟩
  | struct n fs => exact ⟨[], Or.inl ⟨n, fs, rfl⟩⟩
  | other k n => exact ⟨[], Or.inr ⟨k, n, rfl⟩⟩

/-- C17 (defect of the code): `GetStructType` fails with `NotStructErr` (and a nil
type) on every struct type, and succeeds, returning its input unchanged, on every type
that is not a struct (a pointer, a slice, a type of any other kind): the test of its
loop is the wrong way round. So it returns `NotStructErr` on the example entity and
returns `int` for `int`. -/
theorem C17_GetStructType_fails_on_struct :
    (∀ (name : String) (fs : List StructField),
      GetStructType (.struct name fs) = (none, some GdbError.NotStructErr)) ∧
    (∀ t : RType, GetStructType (.ptr t) = (some (.ptr t), none)) ∧
    (∀ t : RType, GetStructType (.slice t) = (some (.slice t), none)) ∧
    (∀ (k : BaseKind) (name : String),
      GetStructType (.other k name) = (some (.other k name), none)) ∧
    GetStructType exampleEntity = (none, some GdbError.NotStructErr) ∧
    GetStructType (.other .Int "int") = (some (.other .Int "int"), none) := by
  refine ⟨?_, ?_, ?_, ?_, by decide, by decide⟩
  · intro name fs; simp [GetStructType, GetStructTypeLoop, RType.Kind]
  · intro t; simp [GetStructType, GetStructTypeLoop, RType.Kind]
  · intro t; simp [GetStructType, GetStructTypeLoop, RType.Kind]
  · intro k name; simp [GetStructType, GetStructTypeLoop, RType.Kind]

/-- C18: for every record type `T` and every type built from `T` by any finite nesting
of pointer and slice layers, `typeFileds` (a total function) returns the table of
`typeFileds(T)`; for every type built from a type that is not a record, `typeFileds`
returns nil, and `cacheTypeFileds`, on a cache the program can have built, returns the
empty table and holds it for that type afterwards; every type is of one of these two
forms. -/
theorem C18_typeFileds_through_layers (ls : List Layer) :
    (∀ (name : String) (fs : List StructField),
      typeFileds (RType.wrap ls (.struct name fs)) = typeFileds (.struct name fs) ∧
      typeFileds (.struct name fs) = some (fs.map typeFiledsEntry)) ∧
    (∀ (k : BaseKind) (name : String),
      typeFileds (RType.wrap ls (.other k name)) = none ∧
      ∀ m : Snapshot, Reachable m →
        (cacheTypeFileds m (RType.wrap ls (.other k name))).1 = [] ∧
        Snapshot.get (cacheTypeFileds m (RType.wrap ls (.other k name))).2
          (RType.wrap ls (.other k name)) = some []) ∧
    (∀ t : RType, ∃ ls1, (∃ name fs, t = RType.wrap ls1 (.struct name fs)) ∨
      (∃ k name, t = RType.wrap ls1 (.other k name))) := by
  refine ⟨?_, ?_, exists_wrap⟩
  · intro name fs
    exact ⟨typeFileds_wrap ls _, typeFileds_struct name fs⟩
  · intro k name
    have h0 : typeFileds (RType.wrap ls (.other k name)) = none := by
      rw [typeFileds_wrap]; rfl
    refine ⟨h0, ?_⟩
    intro m hm
    have h1 := cacheTypeFileds_fst m (RType.wrap ls (.other k name))
      (snapshotOK_of_reachable m hm)
    rw [h0, Option.getD_none] at h1
    refine ⟨h1, ?_⟩
    rw [get_cacheTypeFileds, h1]

/-- Witness of C18: a slice of pointers to the example entity, and a pointer to `int`
from the empty cache. -/
theorem C18_typeFileds_through_layers_witness :
    typeFileds (.slice (.ptr exampleEntity)) = some exampleTable ∧
    Reachable [] ∧
    (cacheTypeFileds [] (.ptr (.other .Int "int"))).1 = [] ∧
    Snapshot.get (cacheTypeFileds [] (.ptr (.other .Int "int"))).2
      (.ptr (.other .Int "int")) = some [] :=
  ⟨((C18_typeFileds_through_layers [.slice, .ptr]).1 "Entity" _).1.trans (by decide),
    Reachable.empty,
    ((C18_typeFileds_through_layers [.ptr]).2.1 .Int "int").2 [] Reachable.empty⟩

theorem notInItems_full (items : List Value) :
    ∀ (tt : List String) (args : List Value) (count : Int),
      notInItems items tt args count =
        (tt ++ (List.range items.length).map (fun (j : Nat) => "$" ++ toString (count + (j : Int))),
          args ++ items, count + items.length) := by
  induction items with
  | nil => intro tt args count; simp [notInItems]
  | cons x rest ih =>
    intro tt args count
    simp only [notInItems, ih, List.length_cons, List.range_succ_eq_map, List.map_cons,
      List.map_map, List.append_assoc, List.singleton_append]
    refine Prod.ext ?_ (Prod.ext ?_ ?_)
    · simp only [Nat.cast_zero, add_zero, List.cons.injEq, List.append_cancel_left_eq, true_and]
      apply List.map_congr_left
      intro j _
      simp only [Function.comp_apply, Nat.cast_succ]
      congr 2
      ring
    · rfl
    · simp only [Nat.cast_add, Nat.cast_one]
      ring

/-- C15 (defect of the code): the placeholders of the text are not `$1, ..., $n` when an
`IN` filter is present, since that filter advances the counter and renders no
placeholder: `In("id", 7)` with limit 10 on the example model returns the text
`SELECT id, name FROM users WHERE id IN ( LIMIT $2`, whose only placeholder is `$2`,
and the filters `a IN`, `b =` in this order return a text whose only placeholder is
`$2` too. -/
theorem C15_IN_filter_leaves_placeholder_gap :
    (SelectOrm.GenerateSql []
        (SelectOrm.In { model := some exampleModel, limit := 10 } "id" [.int 7])).1 =
      some ⟨"SELECT id, name FROM users WHERE id IN ( LIMIT $2", [.int 10], none⟩ ∧
    placeholders "SELECT id, name FROM users WHERE id IN ( LIMIT $2" = [2] ∧
    (SelectOrm.GenerateSql []
        (SelectOrm.Filter (SelectOrm.In { model := some exampleModel } "a" [.int 7])
          "b" (.int 8) [])).1 =
      some ⟨"SELECT id, name FROM users WHERE a IN ( AND b=$2", [.int 8], none⟩ ∧
    placeholders "SELECT id, name FROM users WHERE a IN ( AND b=$2" = [2] := by
  refine ⟨by decide, by decide, by decide, by decide⟩

theorem filterClause_bound (k : String) (c : Conditions) (args : List Value) (start : Nat)
    (h : c.op = EQUAL ∨ (c.op = NOTIN ∧ ∃ items, c.value = Value.slice items)) :
    filterClause k c args ((start : Int) + 1) =
      some (clauseAt k c start, args ++ boundValues c,
        ((start + (boundValues c).length : Nat) : Int) + 1) := by
  have he : ∀ s : String, k ++ ("=$" ++ s) = k ++ "=" ++ ("$" ++ s) := by
    intro s
    rw [String.append_assoc k "=" ("$" ++ s), ← String.append_assoc "=" "$" s]
    rfl
  unfold filterClause clauseAt boundValues placeholder
  rcases h with h | ⟨h, items, hi⟩
  · simp only [h, if_true, List.length_singleton, he]
    simp
  · have h1 : ¬ (NOTIN = EQUAL) := by decide
    have h2 : ¬ (NOTIN = NOTEQUAl) := by decide
    have h3 : ¬ (NOTIN = IN) := by decide
    simp only [h, hi, h1, h2, h3, if_false, notInItems_full, List.nil_append]
    refine congrArg some (Prod.ext ?_ (Prod.ext rfl ?_))
    · simp only
      congr 3
      apply List.map_congr_left
      intro j _
      congr 2
      push_cast
      ring
    · simp only
      push_cast
      ring

theorem boundArgs_cons (k : String) (c : Conditions) (rest : List (String × Conditions)) :
    boundArgs ((k, c) :: rest) = boundValues c ++ boundArgs rest := rfl

theorem filterLoop_bound (l : List (String × Conditions)) :
    ∀ (start : Nat) (marks : List String) (args : List Value),
      (∀ k c, (k, c) ∈ l → c.op = EQUAL ∨ (c.op = NOTIN ∧ ∃ items, c.value = Value.slice items)) →
      filterLoop l marks args ((start : Int) + 1) =
        some (marks ++ clausesAt l start, args ++ boundArgs l,
          ((start + (boundArgs l).length : Nat) : Int) + 1) := by
  induction l with
  | nil => intro start marks args _; simp [filterLoop, clausesAt, boundArgs]
  | cons x rest ih =>
    intro start marks args h
    obtain ⟨k, c⟩ := x
    have hc := filterClause_bound k c args start (h k c (List.mem_cons_self _ _))
    simp only [filterLoop, hc]
    rw [ih (start + (boundValues c).length) _ _
      (fun k1 c1 hm => h k1 c1 (List.mem_cons_of_mem _ hm))]
    simp only [clausesAt, boundArgs_cons, List.append_assoc, List.singleton_append,
      List.length_append, Nat.add_assoc]

/-- C19: for every valid specification whose filters use only the equals and not-in
operators (not-in values being sequences, possibly empty), with the filters in
iteration order, `GenerateSql` returns the argument list made of the filter values in
filter order (not-in elements in sequence order), then the limit if positive, then the
offset if positive, and the text in which the argument at position `p` (from 0) of
that list stands as the placeholder `$(p+1)`, once each and in this order: as many
placeholders as arguments, the `k`-th argument being the value rendered at `$k`. -/
theorem C19_arguments_match_placeholders (m : Snapshot) (so : SelectOrm) (hv : so.valid)
    (hops : ∀ k c, (k, c) ∈ so.filter →
      c.op = EQUAL ∨ (c.op = NOTIN ∧ ∃ items, c.value = Value.slice items)) :
    (so.GenerateSql m).1 =
      some ⟨"SELECT " ++ Join (so.cols m) ", " ++ " FROM " ++ so.table ++
          (if so.filter = [] then "" else " WHERE " ++ Join (clausesAt so.filter 0) " AND ") ++
          so.groupOrder ++
          (if 0 < so.limit then " LIMIT " ++ placeholder (boundArgs so.filter).length
            else "") ++
          (if 0 < so.offset then
            " OFFSET " ++
              placeholder ((boundArgs so.filter).length + (if 0 < so.limit then 1 else 0))
            else ""),
        boundArgs so.filter ++ (if 0 < so.limit then [Value.int so.limit] else []) ++
          (if 0 < so.offset then [Value.int so.offset] else []),
        none⟩ := by
  have hl := filterLoop_bound so.filter 0 [] [] hops
  simp only [Nat.cast_zero, zero_add, List.nil_append] at hl
  have e1 : ∀ s : String, " LIMIT $" ++ s = " LIMIT " ++ ("$" ++ s) := by
    intro s; rw [← String.append_assoc]; rfl
  have e2 : ∀ s : String, " OFFSET $" ++ s = " OFFSET " ++ ("$" ++ s) := by
    intro s; rw [← String.append_assoc]; rfl
  have hlen : so.filter.length = 0 ↔ so.filter = [] := List.length_eq_zero
  rw [GenerateSql_of_valid m so hv]
  by_cases hf : so.filter = []
  · simp only [hf, List.length_nil, ne_eq, not_true_eq_false, if_false, if_true,
      GenerateSqlTail_eq, boundArgs, placeholder, e1, e2, SelectOrm.head]
    by_cases a : 0 < so.limit <;> by_cases b : 0 < so.offset <;>
      simp [a, b, String.append_assoc]
  · simp only [hlen, hf, ne_eq, not_false_eq_true, if_true, if_false, hl, Option.map_some',
      GenerateSqlTail_eq, placeholder, e1, e2, SelectOrm.head]
    by_cases a : 0 < so.limit <;> by_cases b : 0 < so.offset <;>
      simp [a, b, String.append_assoc, add_assoc]

/-- Witness of C19: an equality filter and a `NOT IN` filter of two elements, with
limit 10 and offset 5. -/
theorem C19_arguments_match_placeholders_witness :
    (({ model := some exampleModel, limit := 10, offset := 5,
        filter := [("a", ⟨EQUAL, .str "x"⟩), ("b", ⟨NOTIN, .slice [.int 1, .int 2]⟩)] } :
        SelectOrm)).valid ∧
    (SelectOrm.GenerateSql []
        { model := some exampleModel, limit := 10, offset := 5,
          filter := [("a", ⟨EQUAL, .str "x"⟩), ("b", ⟨NOTIN, .slice [.int 1, .int 2]⟩)] }).1 =
      some ⟨"SELECT id, name FROM users WHERE a=$1 AND b NOT IN ($2, $3) LIMIT $4 OFFSET $5",
        [.str "x", .int 1, .int 2, .int 10, .int 5], none⟩ :=
  ⟨by decide,
    (C19_arguments_match_placeholders []
      { model := some exampleModel, limit := 10, offset := 5,
        filter := [("a", ⟨EQUAL, .str "x"⟩), ("b", ⟨NOTIN, .slice [.int 1, .int 2]⟩)] }
      (by decide)
      (by
        intro k c h
        simp only [List.mem_cons, Prod.mk.injEq, List.mem_singleton, List.not_mem_nil,
          or_false] at h
        rcases h with ⟨_, rfl⟩ | ⟨_, rfl⟩
        · exact Or.inl rfl
        · exact Or.inr ⟨rfl, _, rfl⟩)).trans (by decide)⟩

theorem filterClause_sameShape (k : String) (c1 c2 : Conditions) (a1 a2 : List Value)
    (count : Int) (h : sameShape c1 c2) :
    ∃ text count2 b1 b2,
      filterClause k c1 a1 count = some (text, b1, count2) ∧
      filterClause k c2 a2 count = some (text, b2, count2) := by
  obtain ⟨hop, hseq⟩ := h
  unfold filterClause
  by_cases h1 : c1.op = EQUAL
  · have h1b : c2.op = EQUAL := hop ▸ h1
    simp only [h1, h1b, if_true]
    exact ⟨_, _, _, _, rfl, rfl⟩
  · have h1b : ¬ c2.op = EQUAL := hop ▸ h1
    by_cases h2 : c1.op = NOTEQUAl
    · have h2b : c2.op = NOTEQUAl := hop ▸ h2
      simp only [h1, h1b, h2, h2b, if_true, if_false]
      exact ⟨_, _, _, _, rfl, rfl⟩
    · have h2b : ¬ c2.op = NOTEQUAl := hop ▸ h2
      by_cases h3 : c1.op = IN
      · have h3b : c2.op = IN := hop ▸ h3
        simp only [h1, h1b, h2, h2b, h3, h3b, if_true, if_false]
        exact ⟨_, _, _, _, rfl, rfl⟩
      · have h3b : ¬ c2.op = IN := hop ▸ h3
        obtain ⟨xs, ys, hx, hy, hlen⟩ := hseq h1 h2 h3
        simp only [h1, h1b, h2, h2b, h3, h3b, if_false, hx, hy, notInItems_full, hlen,
          List.nil_append]
        exact ⟨_, _, _, _, rfl, rfl⟩

theorem filterLoop_sameShape (l1 l2 : List (String × Conditions))
    (h : List.Forall₂ (fun a b => a.1 = b.1 ∧ sameShape a.2 b.2) l1 l2) :
    ∀ (marks : List String) (a1 a2 : List Value) (count : Int),
      ∃ marks2 count2 b1 b2,
        filterLoop l1 marks a1 count = some (marks2, b1, count2) ∧
        filterLoop l2 marks a2 count = some (marks2, b2, count2) := by
  induction h with
  | nil => intro marks a1 a2 count; exact ⟨_, _, _, _, rfl, rfl⟩
  | @cons x y r1 r2 hab _ ih =>
    intro marks a1 a2 count
    obtain ⟨k1, c1⟩ := x
    obtain ⟨k2, c2⟩ := y
    obtain ⟨hk, hs⟩ := hab
    simp only at hk hs
    subst hk
    obtain ⟨text, count2, b1, b2, e1, e2⟩ := filterClause_sameShape k1 c1 c2 a1 a2 count hs
    obtain ⟨marks3, count3, d1, d2, f1, f2⟩ := ih (marks ++ [text]) b1 b2 count2
    refine ⟨marks3, count3, d1, d2, ?_, ?_⟩
    · simp only [filterLoop, e1]; exact f1
    · simp only [filterLoop, e2]; exact f2

theorem head_sameButValues (m1 m2 : Snapshot) (so1 so2 : SelectOrm)
    (hm1 : Reachable m1) (hm2 : Reachable m2) (h : so1.sameButValues so2) :
    so1.head m1 = so2.head m2 := by
  obtain ⟨hc, hmo, ht, _, _, _, _, _⟩ := h
  unfold SelectOrm.head SelectOrm.cols SelectOrm.table
  rw [← hc, ← hmo, ← ht]
  cases hmod : so1.model with
  | none => rfl
  | some model =>
    simp only [GetColumns_fst m1 model (snapshotOK_of_reachable m1 hm1),
      GetColumns_fst m2 model (snapshotOK_of_reachable m2 hm2)]

/-- C11 (as amended): two valid specifications that differ only in bound values (the
values of equality and not-equals filters, the elements of `NOT IN` sequences of equal
length, the positive limit and offset numbers) and whose filters are visited in the
same order make `GenerateSql`, on caches the program can have built, return with no
error and with the identical text. -/
theorem C11_text_independent_of_values (m1 m2 : Snapshot) (so1 so2 : SelectOrm)
    (hv : so1.valid) (hm1 : Reachable m1) (hm2 : Reachable m2)
    (h : so1.sameButValues so2) :
    so2.valid ∧
    ∃ sql args1 args2,
      (so1.GenerateSql m1).1 = some ⟨sql, args1, none⟩ ∧
      (so2.GenerateSql m2).1 = some ⟨sql, args2, none⟩ := by
  have hhead := head_sameButValues m1 m2 so1 so2 hm1 hm2 h
  obtain ⟨hc, hmo, ht, ho, hg, hf, hl, hoff⟩ := h
  have hv2 : so2.valid := by
    unfold SelectOrm.valid at hv ⊢
    rw [← hc, ← hmo, ← ht]; exact hv
  refine ⟨hv2, ?_⟩
  have hgo : so1.groupOrder = so2.groupOrder := by
    unfold SelectOrm.groupOrder; rw [ho, hg]
  have hlim : (so1.limit > 0) ↔ (so2.limit > 0) := by
    rcases hl with e | ⟨a, b⟩
    · rw [e]
    · exact ⟨fun _ => b, fun _ => a⟩
  have hofs : (so1.offset > 0) ↔ (so2.offset > 0) := by
    rcases hoff with e | ⟨a, b⟩
    · rw [e]
    · exact ⟨fun _ => b, fun _ => a⟩
  have hlen : so1.filter.length = so2.filter.length := hf.length_eq
  obtain ⟨marks, count, b1, b2, e1, e2⟩ := filterLoop_sameShape so1.filter so2.filter hf [] [] [] 1
  rw [GenerateSql_of_valid m1 so1 hv, GenerateSql_of_valid m2 so2 hv2, e1, e2, ← hlen]
  by_cases hz : so1.filter.length = 0
  · simp only [hz, ne_eq, not_true_eq_false, if_false, GenerateSqlTail_eq, hhead, hgo]
    by_cases a : so1.limit > 0 <;> by_cases b : so1.offset > 0 <;>
      simp only [a, b, hlim.mp, hofs.mp, (not_congr hlim).mp, (not_congr hofs).mp,
        if_true, if_false, not_false_eq_true] <;>
      exact ⟨_, _, _, rfl, rfl⟩
  · simp only [hz, ne_eq, not_false_eq_true, if_true, Option.map_some', GenerateSqlTail_eq,
      hhead, hgo]
    by_cases a : so1.limit > 0 <;> by_cases b : so1.offset > 0 <;>
      simp only [a, b, hlim.mp, hofs.mp, (not_congr hlim).mp, (not_congr hofs).mp,
        if_true, if_false, not_false_eq_true] <;>
      exact ⟨_, _, _, rfl, rfl⟩

/-- Witness of C11: two specifications on the example model with an equality filter,
a `NOT IN` filter of two elements and a positive limit, all values differing. -/
theorem C11_text_independent_of_values_witness :
    (({ model := some exampleModel, limit := 10,
        filter := [("a", ⟨EQUAL, .str "x"⟩), ("b", ⟨NOTIN, .slice [.int 1, .int 2]⟩)] } :
        SelectOrm)).valid ∧
    Reachable [] ∧
    SelectOrm.sameButValues
      { model := some exampleModel, limit := 10,
        filter := [("a", ⟨EQUAL, .str "x"⟩), ("b", ⟨NOTIN, .slice [.int 1, .int 2]⟩)] }
      { model := some exampleModel, limit := 20,
        filter := [("a", ⟨EQUAL, .str "y"⟩), ("b", ⟨NOTIN, .slice [.int 3, .int 4]⟩)] } ∧
    ∃ sql args1 args2,
      (SelectOrm.GenerateSql []
        { model := some exampleModel, limit := 10,
          filter := [("a", ⟨EQUAL, .str "x"⟩),
            ("b", ⟨NOTIN, .slice [.int 1, .int 2]⟩)] }).1 = some ⟨sql, args1, none⟩ ∧
      (SelectOrm.GenerateSql []
        { model := some exampleModel, limit := 20,
          filter := [("a", ⟨EQUAL, .str "y"⟩),
            ("b", ⟨NOTIN, .slice [.int 3, .int 4]⟩)] }).1 = some ⟨sql, args2, none⟩ :=
  have hs : SelectOrm.sameButValues
      { model := some exampleModel, limit := 10,
        filter := [("a", ⟨EQUAL, .str "x"⟩), ("b", ⟨NOTIN, .slice [.int 1, .int 2]⟩)] }
      { model := some exampleModel, limit := 20,
        filter := [("a", ⟨EQUAL, .str "y"⟩), ("b", ⟨NOTIN, .slice [.int 3, .int 4]⟩)] } :=
    ⟨rfl, rfl, rfl, rfl, rfl,
      List.Forall₂.cons ⟨rfl, rfl, fun h => absurd rfl h⟩
        (List.Forall₂.cons ⟨rfl, rfl, fun _ _ _ => ⟨_, _, rfl, rfl, rfl⟩⟩ List.Forall₂.nil),
      Or.inr ⟨by decide, by decide⟩, Or.inl rfl⟩
  ⟨by decide, Reachable.empty, hs,
    (C11_text_independent_of_values [] [] _ _ (by decide) Reachable.empty Reachable.empty
      hs).2⟩

/-- Counterexample to C11 as stated: the filter map `a = 1, b = 2` on the example model,
visited in its two orders, gives two different texts; nothing but the visiting order
differs between the two specifications. -/
theorem C11_counterexample_visiting_order :
    List.Perm
      [("a", (⟨EQUAL, .int 1⟩ : Conditions)), ("b", ⟨EQUAL, .int 2⟩)]
      [("b", (⟨EQUAL, .int 2⟩ : Conditions)), ("a", ⟨EQUAL, .int 1⟩)] ∧
    (({ model := some exampleModel,
        filter := [("a", ⟨EQUAL, .int 1⟩), ("b", ⟨EQUAL, .int 2⟩)] } : SelectOrm)).valid ∧
    (({ model := some exampleModel,
        filter := [("b", ⟨EQUAL, .int 2⟩), ("a", ⟨EQUAL, .int 1⟩)] } : SelectOrm)).valid ∧
    (SelectOrm.GenerateSql []
        { model := some exampleModel,
          filter := [("a", ⟨EQUAL, .int 1⟩), ("b", ⟨EQUAL, .int 2⟩)] }).1 =
      some ⟨"SELECT id, name FROM users WHERE a=$1 AND b=$2", [.int 1, .int 2], none⟩ ∧
    (SelectOrm.GenerateSql []
        { model := some exampleModel,
          filter := [("b", ⟨EQUAL, .int 2⟩), ("a", ⟨EQUAL, .int 1⟩)] }).1 =
      some ⟨"SELECT id, name FROM users WHERE b=$1 AND a=$2", [.int 2, .int 1], none⟩ ∧
    "SELECT id, name FROM users WHERE a=$1 AND b=$2" ≠
      "SELECT id, name FROM users WHERE b=$1 AND a=$2" :=
  ⟨List.Perm.swap _ _ _, by decide, by decide, by decide, by decide, by decide⟩

end gdb
